import Mathlib

/-!
# terraform-provider-ncloud: SourceCommit repository lifecycle and public-IP normalisation

A shallow embedding of
* `ncloud/resource_ncloud_sourcecommit_repository.go` (create / read / update / delete and
  the two polling waits),
* `ncloud/data_source_ncloud_sourcecommit_repository.go` (the repository data-source read),
  and
* `ncloud/data_source_ncloud_public_ip.go` (the classic and VPC record normalisers and the
  singular read).

Conventions of the embedding.
* A Go pointer is an `Option`; dereferencing `none` is a run-time panic, recorded as
  `Outcome.panic`.
* A Go `error` is its message text.
* The remote control plane is a state machine over an arbitrary state type `G`; every SDK
  call consumes the current state and yields the next one.  `World` pairs the remote state
  with the log of SDK calls issued so far.
* `*schema.ResourceData` is mutated in place by the Go code; here every lifecycle operation
  returns the resulting `ResourceData`.
* Logging calls have no effect on the state and are left out.
-/

namespace Ncloud

/-! ## Basic Go values -/

/-- Result of running Go code that may dereference a nil pointer. -/
inductive Outcome (α : Type) where
  | done (a : α)
  | panic
  deriving DecidableEq, Repr

/-- The text of a Go `error`. -/
abbrev Err := String

/-- Go `ncloud.StringValue`: the pointed-to string, or the empty string for a nil pointer. -/
def StringValue (p : Option String) : String :=
  match p with
  | some s => s
  | none => ""

/-- Go `ncloud.BoolValue`: the pointed-to boolean, or `false` for a nil pointer. -/
def BoolValue (p : Option Bool) : Bool :=
  match p with
  | some b => b
  | none => false

/-- Go `strconv.Itoa`: the decimal text of an integer. -/
def Itoa (i : Int) : String := toString i

/-! ## SDK records of the SourceCommit service -/

/-- SDK type `sourcecommit.GetRepositoryDetailResponseResultCreated`. -/
structure GetRepositoryDetailResponseResultCreated where
  User : Option String
  deriving DecidableEq, Repr

/-- SDK type `sourcecommit.GetRepositoryDetailResponseResultGit`. -/
structure GetRepositoryDetailResponseResultGit where
  Https : Option String
  Ssh : Option String
  deriving DecidableEq, Repr

/-- SDK type `sourcecommit.GetRepositoryDetailResponseResultLinked`. -/
structure GetRepositoryDetailResponseResultLinked where
  FileSafer : Option Bool
  deriving DecidableEq, Repr

/-- SDK type `sourcecommit.GetRepositoryDetailResponseResult`; only the fields the provider
reads. -/
structure GetRepositoryDetailResponseResult where
  Id : Option Int
  Name : Option String
  Description : Option String
  Created : Option GetRepositoryDetailResponseResultCreated
  Git : Option GetRepositoryDetailResponseResultGit
  Linked : Option GetRepositoryDetailResponseResultLinked
  deriving DecidableEq, Repr

/-- SDK type `sourcecommit.GetRepositoryListResponseResultRepository`; only the fields the
provider reads. -/
structure GetRepositoryListResponseResultRepository where
  Id : Option Int
  Name : Option String
  deriving DecidableEq, Repr

/-- SDK type `sourcecommit.CreateRepositoryLinked`. -/
structure CreateRepositoryLinked where
  FileSafer : Option Bool
  deriving DecidableEq, Repr

/-- SDK type `sourcecommit.CreateRepository` (the create request). -/
structure CreateRepository where
  Name : Option String
  Description : Option String
  Linked : Option CreateRepositoryLinked
  deriving DecidableEq, Repr

/-- SDK type `sourcecommit.ChangeRepository` (the update request). -/
structure ChangeRepository where
  Description : Option String
  Linked : Option CreateRepositoryLinked
  deriving DecidableEq, Repr

/-! ## The remote gateway -/

/-- The SourceCommit `V2Api` client over a remote state `G`.  A successful detail call
yields the `Result` pointer of the response; a successful list call yields the `Result`
pointer, which holds the `Repository` slice of pointers. -/
structure V2Api (G : Type) where
  RepositoryCreate : CreateRepository → G → Except Err Unit × G
  RepositoryDetailGet : String → G → Except Err (Option GetRepositoryDetailResponseResult) × G
  RepositoryListGet :
    G → Except Err (Option (List (Option GetRepositoryListResponseResultRepository))) × G
  RepositoryUpdate : ChangeRepository → String → G → Except Err Unit × G
  RepositoryDelete : String → G → Except Err Unit × G

/-- One SDK call issued against the gateway. -/
inductive Call where
  | create (req : CreateRepository)
  | detailGet (name : String)
  | listGet
  | update (req : ChangeRepository) (name : String)
  | delete (name : String)
  deriving DecidableEq, Repr

/-- Remote state together with the log of SDK calls issued so far (oldest first). -/
structure World (G : Type) where
  remote : G
  calls : List Call
  deriving DecidableEq, Repr

/-! ## Local resource state and diagnostics -/

/-- The part of `*schema.ResourceData` the repository resource uses: the resource id
(`d.Id()`), the seven schema attributes, and the configured timeouts.  A timeout is counted
in refresh polls that fit into it.  An attribute holding its zero value is unset, which is
what `d.GetOk` reports. -/
structure ResourceData where
  id : String
  idAttr : String
  name : String
  description : String
  creator : String
  git_https : String
  git_ssh : String
  filesafer : Bool
  timeoutCreate : Nat
  timeoutDelete : Nat
  deriving DecidableEq, Repr

/-- SDK type `diag.Severity`. -/
inductive Severity where
  | Error
  | Warning
  deriving DecidableEq, Repr

/-- SDK type `diag.Diagnostic`. -/
structure Diagnostic where
  Severity : Severity
  Summary : String
  Detail : String
  deriving DecidableEq, Repr

/-- SDK type `diag.Diagnostics`. -/
abbrev Diagnostics := List Diagnostic

/-- SDK `diag.FromErr`: one error diagnostic whose summary is the error text. -/
def FromErr (err : Err) : Diagnostics :=
  [{ Severity := Severity.Error, Summary := err, Detail := "" }]

/-- SDK `Diagnostics.HasError`. -/
def HasError (diags : Diagnostics) : Bool :=
  diags.any (fun x => decide (x.Severity = Severity.Error))

/-- Helper `StringPtrOrNil` applied to `d.GetOk` of a string attribute: a pointer to the
value when the attribute is set (non-empty), nil otherwise. -/
def StringPtrOrNil (v : String) : Option String :=
  if v = "" then none else some v

/-- Helper `BoolPtrOrNil(v, ok)`: a pointer to the value when `ok`, nil otherwise. -/
def BoolPtrOrNil (v : Bool) (ok : Bool) : Option Bool :=
  if ok then some v else none

/-! ## Gateway accessors (`getRepository`, `getRepositoryList`, `getRepositoryById`) -/

variable {G : Type}

/-- Go `getRepository` (source lines 266-276). -/
def getRepository (api : V2Api G) (name : String) (w : World G) :
    Except Err (Option GetRepositoryDetailResponseResult) × World G :=
  let r := api.RepositoryDetailGet name w.remote
  let w1 : World G := { remote := r.2, calls := w.calls ++ [Call.detailGet name] }
  match r.1 with
  | Except.error err => (Except.error err, w1)
  | Except.ok result => (Except.ok result, w1)

/-- Go `getRepositoryList` (source lines 278-288); `resp.Result.Repository` panics on a nil
`Result`. -/
def getRepositoryList (api : V2Api G) (w : World G) :
    Outcome (Except Err (List (Option GetRepositoryListResponseResultRepository)) × World G) :=
  let r := api.RepositoryListGet w.remote
  let w1 : World G := { remote := r.2, calls := w.calls ++ [Call.listGet] }
  match r.1 with
  | Except.error err => Outcome.done (Except.error err, w1)
  | Except.ok none => Outcome.panic
  | Except.ok (some l) => Outcome.done (Except.ok l, w1)

/-- The `for ... range repositories` loop of `getRepositoryById` (source lines 298-305):
the first entry whose decimal id equals `id` is looked up by its name; no match gives
`nil, nil`. -/
def getRepositoryByIdLoop (api : V2Api G) (id : String) :
    List (Option GetRepositoryListResponseResultRepository) → World G →
      Outcome (Except Err (Option GetRepositoryDetailResponseResult) × World G)
  | [], w => Outcome.done (Except.ok none, w)
  | none :: _, _ => Outcome.panic
  | some repository :: rest, w =>
    match repository.Id with
    | none => Outcome.panic
    | some i =>
      if Itoa i = id then
        match repository.Name with
        | none => Outcome.panic
        | some n => Outcome.done (getRepository api n w)
      else getRepositoryByIdLoop api id rest w

/-- Go `getRepositoryById` (source lines 290-306). -/
def getRepositoryById (api : V2Api G) (id : String) (w : World G) :
    Outcome (Except Err (Option GetRepositoryDetailResponseResult) × World G) :=
  match getRepositoryList api w with
  | Outcome.panic => Outcome.panic
  | Outcome.done (Except.error err, w1) => Outcome.done (Except.error err, w1)
  | Outcome.done (Except.ok repositories, w1) => getRepositoryByIdLoop api id repositories w1

/-! ## The polling engine of the plugin SDK -/

/-- The `interface{}` payload a refresh function hands back. -/
inductive Payload where
  | nil
  | str (s : String)
  | repo (r : GetRepositoryDetailResponseResult)
  deriving DecidableEq, Repr

/-- The triple `(result, state, err)` returned by a `StateRefreshFunc`. -/
structure RefreshResult where
  result : Payload
  state : String
  err : Option Err
  deriving DecidableEq, Repr

/-- SDK type `resource.StateChangeConf` over a world `W`.  `Timeout` is the number of
refresh polls that fit into the configured duration; `Delay` and `MinTimeout` only space
the polls in time and carry no state. -/
structure StateChangeConf (W : Type) where
  Pending : List String
  Target : List String
  Refresh : W → Outcome (RefreshResult × W)
  Timeout : Nat

/-- The two points on which descriptions of the polling engine differ: how many consecutive
nil payloads are tolerated (`NotFoundChecks`, 20 in the SDK), and whether a label that is
neither pending nor target is retried or aborts the wait with an unexpected-state error
(the SDK aborts). -/
structure Engine where
  NotFoundChecks : Nat
  retryUnexpected : Bool
  deriving DecidableEq, Repr

/-- The engine as shipped in the plugin SDK. -/
def sdkEngine : Engine := { NotFoundChecks := 20, retryUnexpected := false }

/-- Text of the SDK `TimeoutError`. -/
def timeoutError (target : List String) (lastState : String) : Err :=
  "timeout while waiting for state to become '" ++ ", ".intercalate target ++
    "' (last state: '" ++ lastState ++ "')"

/-- Text of the SDK `NotFoundError`. -/
def notFoundError (retries : Nat) : Err :=
  "couldn't find resource (" ++ toString retries ++ " retries)"

/-- Text of the SDK `UnexpectedStateError`. -/
def unexpectedStateError (target : List String) (state : String) : Err :=
  "unexpected state '" ++ state ++ "', wanted target '" ++ ", ".intercalate target ++ "'"

/-- The refresh loop of SDK `StateChangeConf.WaitForStateContext`: `fuel` polls remain
before the timeout, `notfoundTick` counts consecutive nil payloads, `lastState` is the label
seen last. -/
def waitLoop {W : Type} (eng : Engine) (conf : StateChangeConf W) :
    Nat → Nat → String → W → Outcome (Except Err Payload × W)
  | 0, _, lastState, w => Outcome.done (Except.error (timeoutError conf.Target lastState), w)
  | fuel + 1, notfoundTick, _, w =>
    match conf.Refresh w with
    | Outcome.panic => Outcome.panic
    | Outcome.done (res, w1) =>
      match res.err with
      | some err => Outcome.done (Except.error err, w1)
      | none =>
        if res.result = Payload.nil then
          if conf.Target = [] then Outcome.done (Except.ok res.result, w1)
          else if notfoundTick + 1 > eng.NotFoundChecks then
            Outcome.done (Except.error (notFoundError (notfoundTick + 1)), w1)
          else waitLoop eng conf fuel (notfoundTick + 1) res.state w1
        else if res.state ∈ conf.Target then Outcome.done (Except.ok res.result, w1)
        else if res.state ∈ conf.Pending then waitLoop eng conf fuel 0 res.state w1
        else if conf.Pending ≠ [] ∧ eng.retryUnexpected = false then
          Outcome.done (Except.error (unexpectedStateError conf.Target res.state), w1)
        else waitLoop eng conf fuel 0 res.state w1

/-- SDK `StateChangeConf.WaitForStateContext`. -/
def WaitForStateContext {W : Type} (eng : Engine) (conf : StateChangeConf W) (w : W) :
    Outcome (Except Err Payload × W) :=
  waitLoop eng conf conf.Timeout 0 "" w

/-! ## The two waits of the repository resource -/

/-- The `Refresh` closure of `waitForSourceCommitRepositoryDeletion` (source lines
215-224). -/
def deletionRefresh (api : V2Api G) (d : ResourceData) (w : World G) :
    Outcome (RefreshResult × World G) :=
  match getRepositoryById api d.id w with
  | Outcome.panic => Outcome.panic
  | Outcome.done (Except.error err, w1) =>
    Outcome.done ({ result := Payload.nil, state := "", err := some err }, w1)
  | Outcome.done (Except.ok none, w1) =>
    Outcome.done ({ result := Payload.str d.id, state := "RESOLVE", err := none }, w1)
  | Outcome.done (Except.ok (some repository), w1) =>
    Outcome.done ({ result := Payload.repo repository, state := "PENDING", err := none }, w1)

/-- The `StateChangeConf` built by `waitForSourceCommitRepositoryDeletion` (source lines
212-228). -/
def deletionConf (api : V2Api G) (d : ResourceData) : StateChangeConf (World G) :=
  { Pending := ["PENDING"]
    Target := ["RESOLVE"]
    Refresh := deletionRefresh api d
    Timeout := d.timeoutDelete }

/-- Go `waitForSourceCommitRepositoryDeletion` (source lines 211-234); `none` is a nil
error. -/
def waitForSourceCommitRepositoryDeletion (eng : Engine) (api : V2Api G) (d : ResourceData)
    (w : World G) : Outcome (Option Err × World G) :=
  match WaitForStateContext eng (deletionConf api d) w with
  | Outcome.panic => Outcome.panic
  | Outcome.done (Except.error err, w1) =>
    Outcome.done
      (some ("Error waiting for SourceCommit Repository id : (" ++ d.id ++
        ") to become terminating: " ++ err), w1)
  | Outcome.done (Except.ok _, w1) => Outcome.done (none, w1)

/-- The `Refresh` closure of `waitForSourceCommitRepositoryActive` (source lines 241-255). -/
def activeRefresh (api : V2Api G) (name : String) (w : World G) :
    Outcome (RefreshResult × World G) :=
  match getRepository api name w with
  | (Except.error err, w1) =>
    Outcome.done
      ({ result := Payload.nil, state := "",
         err := some ("Repository response error , name : (" ++ name ++
           ") to become activating: " ++ err) }, w1)
  | (Except.ok none, w1) =>
    Outcome.done ({ result := Payload.str name, state := "NULL", err := none }, w1)
  | (Except.ok (some repository), w1) =>
    if StringValue repository.Name = name then
      Outcome.done ({ result := Payload.repo repository, state := "RESOLVE", err := none }, w1)
    else
      Outcome.done ({ result := Payload.nil, state := "PENDING", err := none }, w1)

/-- The `StateChangeConf` built by `waitForSourceCommitRepositoryActive` (source lines
238-259). -/
def activeConf (api : V2Api G) (d : ResourceData) (name : String) :
    StateChangeConf (World G) :=
  { Pending := ["PENDING"]
    Target := ["RESOLVE"]
    Refresh := activeRefresh api name
    Timeout := d.timeoutCreate }

/-- Go `waitForSourceCommitRepositoryActive` (source lines 236-264); `none` is a nil
error. -/
def waitForSourceCommitRepositoryActive (eng : Engine) (api : V2Api G) (d : ResourceData)
    (name : String) (w : World G) : Outcome (Option Err × World G) :=
  match WaitForStateContext eng (activeConf api d name) w with
  | Outcome.panic => Outcome.panic
  | Outcome.done (Except.error err, w1) =>
    Outcome.done
      (some ("error waiting for SourceCommit Repository id : (" ++ name ++
        ") to become activating: " ++ err), w1)
  | Outcome.done (Except.ok _, w1) => Outcome.done (none, w1)

/-! ## Lifecycle operations of the repository resource -/

/-- The lookup of `resourceNcloudSourceCommitRepositoryRead` (source lines 128-132): by id
through the list when the name attribute is empty, directly by name otherwise. -/
def readLookup (api : V2Api G) (d : ResourceData) (w : World G) :
    Outcome (Except Err (Option GetRepositoryDetailResponseResult) × World G) :=
  if d.name = "" then getRepositoryById api d.id w
  else Outcome.done (getRepository api d.name w)

/-- The assignments of source lines 152-159: `d.SetId` and the seven `d.Set` calls.  A nil
`Id`, `Created`, `Git` or `Linked` pointer is dereferenced and panics; a nil pointer handed
to `d.Set` stores the zero value. -/
def setRepositoryAttributes (d : ResourceData)
    (repository : GetRepositoryDetailResponseResult) : Outcome ResourceData :=
  match repository.Id, repository.Created, repository.Git, repository.Linked with
  | some i, some created, some git, some linked =>
    Outcome.done
      { d with
        id := Itoa i
        idAttr := Itoa i
        name := StringValue repository.Name
        description := StringValue repository.Description
        creator := StringValue created.User
        git_https := StringValue git.Https
        git_ssh := StringValue git.Ssh
        filesafer := BoolValue linked.FileSafer }
  | _, _, _, _ => Outcome.panic

/-- Go `resourceNcloudSourceCommitRepositoryRead` (source lines 120-162). -/
def resourceNcloudSourceCommitRepositoryRead (api : V2Api G) (d : ResourceData)
    (w : World G) : Outcome (Diagnostics × ResourceData × World G) :=
  match readLookup api d w with
  | Outcome.panic => Outcome.panic
  | Outcome.done (Except.error _, w1) =>
    Outcome.done
      ([{ Severity := Severity.Error
          Summary := "Unable to search repository"
          Detail := "Unable to search repository - detail repository : " ++ d.name }], d, w1)
  | Outcome.done (Except.ok none, w1) => Outcome.done ([], { d with id := "" }, w1)
  | Outcome.done (Except.ok (some repository), w1) =>
    match setRepositoryAttributes d repository with
    | Outcome.panic => Outcome.panic
    | Outcome.done d1 => Outcome.done ([], d1, w1)

/-- The request built by `resourceNcloudSourceCommitRepositoryCreate` (source lines
74-83). -/
def createRequest (d : ResourceData) : CreateRepository :=
  { Name := some d.name
    Description := StringPtrOrNil d.description
    Linked :=
      if d.filesafer = true then some { FileSafer := BoolPtrOrNil d.filesafer true }
      else none }

/-- Go `resourceNcloudSourceCommitRepositoryCreate` (source lines 71-118). -/
def resourceNcloudSourceCommitRepositoryCreate (eng : Engine) (api : V2Api G)
    (d : ResourceData) (w : World G) : Outcome (Diagnostics × ResourceData × World G) :=
  let reqParams := createRequest d
  let r := api.RepositoryCreate reqParams w.remote
  let w1 : World G := { remote := r.2, calls := w.calls ++ [Call.create reqParams] }
  match r.1 with
  | Except.error err =>
    Outcome.done
      ([{ Severity := Severity.Error
          Summary := "Fail to create repository"
          Detail := err }], d, w1)
  | Except.ok _ =>
    match waitForSourceCommitRepositoryActive eng api d (StringValue reqParams.Name) w1 with
    | Outcome.panic => Outcome.panic
    | Outcome.done (some err, w2) =>
      Outcome.done
        (FromErr err ++
          [{ Severity := Severity.Error
             Summary := "Unable to search repository"
             Detail := "Unable to search repository - detail , name : (" ++ d.name ++ ")" }],
          d, w2)
    | Outcome.done (none, w2) => resourceNcloudSourceCommitRepositoryRead api d w2

/-- The request built by `resourceNcloudSourceCommitRepositoryUpdate` (source lines
167-175). -/
def updateRequest (d : ResourceData) : ChangeRepository :=
  { Description := StringPtrOrNil d.description
    Linked :=
      if d.filesafer = true then some { FileSafer := BoolPtrOrNil d.filesafer true }
      else none }

/-- Go `resourceNcloudSourceCommitRepositoryUpdate` (source lines 164-187). -/
def resourceNcloudSourceCommitRepositoryUpdate (api : V2Api G) (d : ResourceData)
    (w : World G) : Outcome (Diagnostics × ResourceData × World G) :=
  let reqParams := updateRequest d
  let r := api.RepositoryUpdate reqParams d.name w.remote
  let w1 : World G := { remote := r.2, calls := w.calls ++ [Call.update reqParams d.name] }
  match r.1 with
  | Except.error err => Outcome.done (FromErr err, d, w1)
  | Except.ok _ => resourceNcloudSourceCommitRepositoryRead api d w1

/-- Go `resourceNcloudSourceCommitRepositoryDelete` (source lines 189-209). -/
def resourceNcloudSourceCommitRepositoryDelete (eng : Engine) (api : V2Api G)
    (d : ResourceData) (w : World G) : Outcome (Diagnostics × ResourceData × World G) :=
  match waitForSourceCommitRepositoryActive eng api d d.name w with
  | Outcome.panic => Outcome.panic
  | Outcome.done (some err, w1) => Outcome.done (FromErr err, d, w1)
  | Outcome.done (none, w1) =>
    let r := api.RepositoryDelete d.name w1.remote
    let w2 : World G := { remote := r.2, calls := w1.calls ++ [Call.delete d.name] }
    match r.1 with
    | Except.error err => Outcome.done (FromErr err, d, w2)
    | Except.ok _ =>
      match waitForSourceCommitRepositoryDeletion eng api d w2 with
      | Outcome.panic => Outcome.panic
      | Outcome.done (some err, w3) => Outcome.done (FromErr err, d, w3)
      | Outcome.done (none, w3) => Outcome.done ([], d, w3)

/-! ## Public-IP data source: canonical records -/

/-- A value stored in a Go `map[string]interface{}`: nil, a string or a boolean. -/
inductive Value where
  | null
  | str (s : String)
  | bool (b : Bool)
  deriving DecidableEq, Repr

/-- A Go `map[string]interface{}` as an association list with distinct keys. -/
abbrev Record := List (String × Value)

/-- Whether a key is present, and its value (the two-result form `v, ok := m[k]`). -/
def mapLookup (m : Record) (k : String) : Option Value :=
  match m with
  | [] => none
  | (k1, v1) :: rest => if k1 = k then some v1 else mapLookup rest k

/-- Go `m[k]`: nil for a missing key. -/
def mapIndex (m : Record) (k : String) : Value :=
  match mapLookup m k with
  | some v => v
  | none => Value.null

/-- Go `m[k] = v`: overwrite the key when present, add it otherwise. -/
def mapSet (m : Record) (k : String) (v : Value) : Record :=
  match m with
  | [] => [(k, v)]
  | (k1, v1) :: rest => if k1 = k then (k, v) :: rest else (k1, v1) :: mapSet rest k v

/-- The field names (keys) of a record. -/
def mapKeys (m : Record) : List String := m.map Prod.fst

/-- SDK type `CommonCode` (same shape in the `server` and `vserver` packages). -/
structure CommonCode where
  Code : Option String
  CodeName : Option String
  deriving DecidableEq, Repr

/-- SDK type `server.Zone`. -/
structure Zone where
  ZoneNo : Option String
  ZoneName : Option String
  ZoneCode : Option String
  ZoneDescription : Option String
  RegionNo : Option String
  deriving DecidableEq, Repr

/-- SDK type `server.ServerInstance`; only the fields the data source reads. -/
structure ServerInstance where
  ServerInstanceNo : Option String
  ServerName : Option String
  deriving DecidableEq, Repr

/-- SDK type `server.PublicIpInstance` (classic flavor); only the fields the data source
reads. -/
structure ClassicPublicIpInstance where
  PublicIpInstanceNo : Option String
  PublicIp : Option String
  PublicIpDescription : Option String
  PublicIpInstanceStatus : Option CommonCode
  PublicIpKindType : Option CommonCode
  Zone : Option Zone
  ServerInstanceAssociatedWithPublicIp : Option ServerInstance
  deriving DecidableEq, Repr

/-- SDK type `vserver.PublicIpInstance` (VPC flavor); only the fields the data source
reads. -/
structure VpcPublicIpInstance where
  PublicIpInstanceNo : Option String
  PublicIp : Option String
  PublicIpDescription : Option String
  PublicIpInstanceStatus : Option CommonCode
  ServerInstanceNo : Option String
  ServerName : Option String
  deriving DecidableEq, Repr

/-- Modelled from the spec: the helper `flattenCommonCode` is not part of the source files
at hand.  Section 4.1: for a coded sub-object the code value is extracted, and an empty or
absent code leaves the field out.  An absent sub-object gives the empty map. -/
def flattenCommonCode (i : Option CommonCode) : Record :=
  match i with
  | none => []
  | some c =>
    let m : Record :=
      match c.Code with
      | some code => if code = "" then [] else [("code", Value.str code)]
      | none => []
    match c.CodeName with
    | some codeName => if codeName = "" then m else mapSet m "code_name" (Value.str codeName)
    | none => m

/-- Modelled from the spec: the helper `flattenZone` is not part of the source files at
hand.  Section 4.1: for a zone sub-object the zone code is extracted, and an empty or
absent code leaves the field out.  An absent sub-object gives the empty map. -/
def flattenZone (i : Option Zone) : Record :=
  match i with
  | none => []
  | some z =>
    match z.ZoneCode with
    | some code => if code = "" then [] else [("zone_code", Value.str code)]
    | none => []

/-- Modelled from the spec: the helper `SetStringIfNotNilAndEmpty` is not part of the source
files at hand.  Section 4.1: a source field is copied into the record only when it is
non-null and non-empty; otherwise the record is left as it is. -/
def SetStringIfNotNilAndEmpty (m : Record) (k : String) (v : Option String) : Record :=
  match v with
  | some s => if s = "" then m else mapSet m k (Value.str s)
  | none => m

/-- The body of the `for` loop of `getClassicPublicIpList` (source lines 171-198): the
canonical record of one classic raw record.  The three unguarded dereferences panic on a
nil pointer. -/
def classicInstance (r : ClassicPublicIpInstance) : Outcome Record :=
  match r.PublicIpInstanceNo, r.PublicIp, r.PublicIpDescription with
  | some no, some ip, some desc =>
    let inst0 : Record :=
      [ ("id", Value.str no)
      , ("instance_no", Value.str no)
      , ("public_ip_no", Value.str no)
      , ("public_ip", Value.str ip)
      , ("description", Value.str desc)
      , ("server_instance_no", Value.null)
      , ("server_name", Value.null) ]
    let inst1 :=
      if mapIndex (flattenCommonCode r.PublicIpInstanceStatus) "code" ≠ Value.null then
        mapSet inst0 "status" (mapIndex (flattenCommonCode r.PublicIpInstanceStatus) "code")
      else inst0
    let inst2 :=
      if mapIndex (flattenCommonCode r.PublicIpKindType) "code" ≠ Value.null then
        mapSet inst1 "kind_type" (mapIndex (flattenCommonCode r.PublicIpKindType) "code")
      else inst1
    let inst3 :=
      if mapIndex (flattenZone r.Zone) "zone_code" ≠ Value.null then
        mapSet inst2 "zone" (mapIndex (flattenZone r.Zone) "zone_code")
      else inst2
    match r.ServerInstanceAssociatedWithPublicIp with
    | some serverInstance =>
      Outcome.done
        (SetStringIfNotNilAndEmpty
          (SetStringIfNotNilAndEmpty inst3 "server_instance_no" serverInstance.ServerInstanceNo)
          "server_name" serverInstance.ServerName)
    | none => Outcome.done inst3
  | _, _, _ => Outcome.panic

/-- The body of the `for` loop of `getVpcPublicIpList` (source lines 231-247): the canonical
record of one VPC raw record.  The three unguarded dereferences panic on a nil pointer. -/
def vpcInstance (r : VpcPublicIpInstance) : Outcome Record :=
  match r.PublicIpInstanceNo, r.PublicIp, r.PublicIpDescription with
  | some no, some ip, some desc =>
    let inst0 : Record :=
      [ ("id", Value.str no)
      , ("public_ip_no", Value.str no)
      , ("public_ip", Value.str ip)
      , ("description", Value.str desc)
      , ("server_instance_no", Value.null)
      , ("server_name", Value.null) ]
    let inst1 := SetStringIfNotNilAndEmpty inst0 "server_instance_no" r.ServerInstanceNo
    let inst2 := SetStringIfNotNilAndEmpty inst1 "server_name" r.ServerName
    if mapIndex (flattenCommonCode r.PublicIpInstanceStatus) "code" ≠ Value.null then
      Outcome.done
        (mapSet inst2 "status" (mapIndex (flattenCommonCode r.PublicIpInstanceStatus) "code"))
    else Outcome.done inst2
  | _, _, _ => Outcome.panic

/-- The `for` loop over the response list: every element is normalised in order; a nil
element or a nil guaranteed field panics. -/
def normalizeAll {α : Type} (f : α → Outcome Record) : List (Option α) → Outcome (List Record)
  | [] => Outcome.done []
  | none :: _ => Outcome.panic
  | some r :: rest =>
    match f r with
    | Outcome.panic => Outcome.panic
    | Outcome.done inst =>
      match normalizeAll f rest with
      | Outcome.panic => Outcome.panic
      | Outcome.done resources => Outcome.done (inst :: resources)

/-- Go `getClassicPublicIpList` (source lines 143-202) from the point where the SDK call
`GetPublicIpInstanceList` has answered with `resp`: the error is handed on, the list is
normalised. -/
def getClassicPublicIpList (resp : Except Err (List (Option ClassicPublicIpInstance))) :
    Outcome (Except Err (List Record)) :=
  match resp with
  | Except.error err => Outcome.done (Except.error err)
  | Except.ok l =>
    match normalizeAll classicInstance l with
    | Outcome.panic => Outcome.panic
    | Outcome.done resources => Outcome.done (Except.ok resources)

/-- Go `getVpcPublicIpList` (source lines 204-251) from the point where the SDK call
`GetPublicIpInstanceList` has answered with `resp`. -/
def getVpcPublicIpList (resp : Except Err (List (Option VpcPublicIpInstance))) :
    Outcome (Except Err (List Record)) :=
  match resp with
  | Except.error err => Outcome.done (Except.error err)
  | Except.ok l =>
    match normalizeAll vpcInstance l with
    | Outcome.panic => Outcome.panic
    | Outcome.done resources => Outcome.done (Except.ok resources)

/-! ## Concrete gateways used to exercise the theorems -/

/-- A repository record with every pointer set. -/
def sampleRepository (i : Int) (n : String) : GetRepositoryDetailResponseResult :=
  { Id := some i
    Name := some n
    Description := some "demo"
    Created := some { User := some "alice" }
    Git := some { Https := some "https://git/x", Ssh := some "ssh://git/x" }
    Linked := some { FileSafer := some true } }

/-- A stateless gateway: every mutation succeeds, the detail call answers from `detail`, the
list call answers `list`. -/
def staticApi (detail : String → Except Err (Option GetRepositoryDetailResponseResult))
    (list : Except Err (Option (List (Option GetRepositoryListResponseResultRepository)))) :
    V2Api Unit :=
  { RepositoryCreate := fun _ g => (Except.ok (), g)
    RepositoryDetailGet := fun n g => (detail n, g)
    RepositoryListGet := fun g => (list, g)
    RepositoryUpdate := fun _ _ g => (Except.ok (), g)
    RepositoryDelete := fun _ g => (Except.ok (), g) }

/-- A gateway on which no repository is visible: detail lookups succeed with a nil result
and the list is empty. -/
def absentApi : V2Api Unit := staticApi (fun _ => Except.ok none) (Except.ok (some []))

/-- A gateway holding one repository, id 55, named "tf-1234-repo". -/
def oneRepoApi : V2Api Unit :=
  staticApi
    (fun n => if n = "tf-1234-repo" then Except.ok (some (sampleRepository 55 "tf-1234-repo"))
      else Except.ok none)
    (Except.ok (some [some { Id := some 55, Name := some "tf-1234-repo" }]))

/-- A gateway whose every call fails with the message "503". -/
def failingApi : V2Api Unit :=
  { RepositoryCreate := fun _ g => (Except.error "503", g)
    RepositoryDetailGet := fun _ g => (Except.error "503", g)
    RepositoryListGet := fun g => (Except.error "503", g)
    RepositoryUpdate := fun _ _ g => (Except.error "503", g)
    RepositoryDelete := fun _ g => (Except.error "503", g) }

/-- A local resource state with the given id and name and nothing else set. -/
def sampleData (id name : String) : ResourceData :=
  { id := id, idAttr := "", name := name, description := "", creator := "", git_https := "",
    git_ssh := "", filesafer := false, timeoutCreate := 5, timeoutDelete := 5 }

/-- The world before any call. -/
def freshWorld : World Unit := { remote := (), calls := [] }

/-- Two local states carry the same id and the same attributes (name, description, creator,
git_https, git_ssh, filesafer, and the id attribute); the configured timeouts are not
compared. -/
def sameIdAndAttributes (a b : ResourceData) : Prop :=
  a.id = b.id ∧ a.idAttr = b.idAttr ∧ a.name = b.name ∧ a.description = b.description ∧
    a.creator = b.creator ∧ a.git_https = b.git_https ∧ a.git_ssh = b.git_ssh ∧
    a.filesafer = b.filesafer

/-- A gateway whose list shows the id 7 twice, first under the name "other" and then under
the name "repo"; only "repo" resolves to a repository. -/
def duplicateIdApi : V2Api Unit :=
  staticApi
    (fun n => if n = "repo" then Except.ok (some (sampleRepository 7 "repo")) else Except.ok none)
    (Except.ok (some [some { Id := some 7, Name := some "other" },
      some { Id := some 7, Name := some "repo" }]))

/-- A gateway whose list shows one entry, id 7 with an empty name, and whose detail lookup
of the empty name resolves to a repository with id 7. -/
def emptyNameApi : V2Api Unit :=
  staticApi (fun _ => Except.ok (some (sampleRepository 7 "")))
    (Except.ok (some [some { Id := some 7, Name := some "" }]))

/-! ## Public-IP data source: predicates and sample records -/

/-- The keys of the map literal of `getClassicPublicIpList` (source lines 171-179). -/
def classicBaseKeys : List String :=
  ["id", "instance_no", "public_ip_no", "public_ip", "description", "server_instance_no",
    "server_name"]

/-- The keys of the map literal of `getVpcPublicIpList` (source lines 231-238). -/
def vpcBaseKeys : List String :=
  ["id", "public_ip_no", "public_ip", "description", "server_instance_no", "server_name"]

/-- The guard of source line 181: the flattened status carries a code. -/
def classicStatusPresent (r : ClassicPublicIpInstance) : Prop :=
  mapIndex (flattenCommonCode r.PublicIpInstanceStatus) "code" ≠ Value.null

/-- The guard of source line 185: the flattened kind carries a code. -/
def classicKindPresent (r : ClassicPublicIpInstance) : Prop :=
  mapIndex (flattenCommonCode r.PublicIpKindType) "code" ≠ Value.null

/-- The guard of source line 189: the flattened zone carries a zone code. -/
def classicZonePresent (r : ClassicPublicIpInstance) : Prop :=
  mapIndex (flattenZone r.Zone) "zone_code" ≠ Value.null

/-- The guard of source line 243: the flattened status carries a code. -/
def vpcStatusPresent (r : VpcPublicIpInstance) : Prop :=
  mapIndex (flattenCommonCode r.PublicIpInstanceStatus) "code" ≠ Value.null

/-- The three fields the classic loop dereferences without a guard are present. -/
def classicGuaranteed (r : ClassicPublicIpInstance) : Prop :=
  r.PublicIpInstanceNo ≠ none ∧ r.PublicIp ≠ none ∧ r.PublicIpDescription ≠ none

/-- The three fields the VPC loop dereferences without a guard are present. -/
def vpcGuaranteed (r : VpcPublicIpInstance) : Prop :=
  r.PublicIpInstanceNo ≠ none ∧ r.PublicIp ≠ none ∧ r.PublicIpDescription ≠ none

/-- Two records have the same set of field names. -/
def sameFieldNames (a b : Record) : Prop :=
  ∀ k, k ∈ mapKeys a ↔ k ∈ mapKeys b

/-- A classic and a VPC raw record represent equivalent data: same instance number, address,
description, status and associated server (number and name). -/
def equivalentRecords (c : ClassicPublicIpInstance) (v : VpcPublicIpInstance) : Prop :=
  c.PublicIpInstanceNo = v.PublicIpInstanceNo ∧ c.PublicIp = v.PublicIp ∧
    c.PublicIpDescription = v.PublicIpDescription ∧
    c.PublicIpInstanceStatus = v.PublicIpInstanceStatus ∧
    (c.ServerInstanceAssociatedWithPublicIp.bind fun srv => srv.ServerInstanceNo) =
      v.ServerInstanceNo ∧
    (c.ServerInstanceAssociatedWithPublicIp.bind fun srv => srv.ServerName) = v.ServerName

/-- The relational-field rule for key `k` fed from the source field `src`: the key holds the
source string when the source is present and non-empty, holds null otherwise, and is never
missing and never the empty string. -/
def holdsSourceOrNull (inst : Record) (k : String) (src : Option String) : Prop :=
  (∀ s, src = some s → s ≠ "" → mapLookup inst k = some (Value.str s)) ∧
    ((src = none ∨ src = some "") → mapLookup inst k = some Value.null) ∧
    mapLookup inst k ≠ none ∧ mapLookup inst k ≠ some (Value.str "")

/-- A classic raw record with the given status and server sub-objects, no kind and no
zone. -/
def sampleClassic (status : Option CommonCode) (srv : Option ServerInstance) :
    ClassicPublicIpInstance :=
  { PublicIpInstanceNo := some "101"
    PublicIp := some "10.0.0.1"
    PublicIpDescription := some "edge"
    PublicIpInstanceStatus := status
    PublicIpKindType := none
    Zone := none
    ServerInstanceAssociatedWithPublicIp := srv }

/-- A VPC raw record with the given status and server fields. -/
def sampleVpc (status : Option CommonCode) (srvNo srvName : Option String) :
    VpcPublicIpInstance :=
  { PublicIpInstanceNo := some "101"
    PublicIp := some "10.0.0.1"
    PublicIpDescription := some "edge"
    PublicIpInstanceStatus := status
    ServerInstanceNo := srvNo
    ServerName := srvName }

/-- The status sub-object with code "CREAT". -/
def createdStatus : CommonCode := { Code := some "CREAT", CodeName := some "created" }

/-- The value the relational-field rule prescribes for a source field: the string when
present and non-empty, null otherwise. -/
def relationalValue (src : Option String) : Value :=
  match src with
  | some s => if s = "" then Value.null else Value.str s
  | none => Value.null

/-! ## Public-IP data source: filter engine, resolver and Read -/

/-- One element of the `filter` block of a data source: a field name, the acceptable
string-encoded values, and the match mode (pattern or literal, case flag). -/
structure FilterPredicate where
  name : String
  values : List String
  regex : Bool
  caseSensitive : Bool
  deriving DecidableEq, Repr

/-- The keys of the schema of `dataSourceNcloudPublicIp` (source lines 19-110). -/
def publicIpSchemaKeys : List String :=
  ["id", "internet_line_type", "is_associated", "zone", "filter", "public_ip_no", "public_ip",
    "description", "kind_type", "server_instance_no", "server_name", "search_filter_name",
    "search_filter_value", "region", "sorted_by", "sorting_order", "instance_no", "list",
    "instance_no_list"]

/-- Modelled from the spec: the stringification used by the filter engine, which is not part
of the source files at hand.  Section 4.2: a boolean becomes "true" or "false", an absent
value becomes the empty string. -/
def stringify (v : Value) : String :=
  match v with
  | Value.str s => s
  | Value.bool true => "true"
  | Value.bool false => "false"
  | Value.null => ""

/-- Modelled from the spec: the comparison of one acceptable value with a stringified field,
which is not part of the source files at hand.  Sections 3 and 4.2: literal equality or a
pattern match, with a case flag; the pattern matcher `reMatch` (pattern, case flag, text) is
the engine's choice and is taken as given. -/
def valueMatches (reMatch : String → Bool → String → Bool) (p : FilterPredicate)
    (filterVal propertyVal : String) : Bool :=
  if p.regex = true then reMatch filterVal p.caseSensitive propertyVal
  else if p.caseSensitive = true then decide (filterVal = propertyVal)
  else decide (filterVal.toLower = propertyVal.toLower)

/-- Modelled from the spec: `predicate.matches(r)`, which is not part of the source files at
hand.  Section 4.2: the stringified value of the record for the field of the predicate
matches at least one of the acceptable values. -/
def predicateMatches (reMatch : String → Bool → String → Bool) (p : FilterPredicate)
    (r : Record) : Bool :=
  p.values.any fun v => valueMatches reMatch p v (stringify (mapIndex r p.name))

/-- Modelled from the spec: the helper `ApplyFilters` is not part of the source files at
hand.  Section 4.2: the records kept are those that match every predicate; the empty filter
set returns the input unchanged; a field name outside the schema is a configuration error
and is not ignored.  The call site (source line 131) receives a list and nothing else, so
the error surfaces as no record being returned, which makes the read fail. -/
def ApplyFilters (reMatch : String → Bool → String → Bool) (filters : List FilterPredicate)
    (items : List Record) (schemaKeys : List String) : List Record :=
  if filters = [] then items
  else if filters.any (fun p => decide (p.name ∉ schemaKeys)) = true then []
  else items.filter fun r => filters.all fun p => predicateMatches reMatch p r

/-- The NotFound failure of the single-result resolver. -/
def notFoundResult : Err := "NotFound: no results"

/-- The AmbiguousResult failure of the single-result resolver; it names the count. -/
def ambiguousResult (resultCount : Nat) : Err :=
  "AmbiguousResult: more than one result (" ++ toString resultCount ++ ")"

/-- Modelled from the spec: the helper `validateOneResult` is not part of the source files
at hand.  Section 4.3: zero records fail with NotFound, exactly one passes, two or more fail
with AmbiguousResult naming the count.  `none` is a nil error. -/
def validateOneResult (resultCount : Nat) : Option Err :=
  if resultCount < 1 then some notFoundResult
  else if resultCount > 1 then some (ambiguousResult resultCount)
  else none

/-- The part of `*schema.ResourceData` the public-IP data source uses: the arguments `id`,
`is_associated`, `zone` and `filter`, and the record the state was set from (none before a
successful read). -/
structure PublicIpData where
  id : String
  is_associated : Bool
  zone : String
  filter : List FilterPredicate
  resource : Option Record
  deriving DecidableEq, Repr

/-- Modelled from the spec: the helper `SetSingularResourceDataFromMapSchema` is not part of
the source files at hand.  Section 6: the singular read yields the canonical record; how the
record is marshalled into schema attributes is outside the core (section 1), so the state
keeps the record itself. -/
def SetSingularResourceDataFromMapSchema (d : PublicIpData) (m : Record) : PublicIpData :=
  { d with resource := some m }

/-- SDK type `server.GetPublicIpInstanceListRequest`; only the fields the data source
sets. -/
structure ClassicListRequest where
  RegionNo : Option String
  ZoneNo : Option String
  IsAssociated : Option Bool
  PublicIpInstanceNoList : List String
  deriving DecidableEq, Repr

/-- SDK type `vserver.GetPublicIpInstanceListRequest`; only the fields the data source
sets. -/
structure VpcListRequest where
  RegionCode : Option String
  IsAssociated : Option Bool
  PublicIpInstanceNoList : List String
  deriving DecidableEq, Repr

/-- The part of `*ProviderConfig` the public-IP data source uses: the flavor flag, the
region, and the two SDK list calls.  A successful call yields the `PublicIpInstanceList`
slice of the response. -/
structure ProviderConfig where
  SupportVPC : Bool
  RegionNo : String
  RegionCode : String
  classicGetPublicIpInstanceList :
    ClassicListRequest → Except Err (List (Option ClassicPublicIpInstance))
  vpcGetPublicIpInstanceList : VpcListRequest → Except Err (List (Option VpcPublicIpInstance))

/-- The request built by `getClassicPublicIpList` (source lines 147-158). -/
def classicListRequest (d : PublicIpData) (config : ProviderConfig) : ClassicListRequest :=
  { RegionNo := some config.RegionNo
    ZoneNo := StringPtrOrNil d.zone
    IsAssociated := if d.is_associated = true then some d.is_associated else none
    PublicIpInstanceNoList := if d.id = "" then [] else [d.id] }

/-- The request built by `getVpcPublicIpList` (source lines 208-218). -/
def vpcListRequest (d : PublicIpData) (config : ProviderConfig) : VpcListRequest :=
  { RegionCode := some config.RegionCode
    IsAssociated := if d.is_associated = true then some d.is_associated else none
    PublicIpInstanceNoList := if d.id = "" then [] else [d.id] }

/-- The flavor switch of `dataSourceNcloudPublicIpRead` (source lines 120-124): the list
function of the selected backend, fed with the answer of its SDK call. -/
def listPublicIps (config : ProviderConfig) (d : PublicIpData) :
    Outcome (Except Err (List Record)) :=
  if config.SupportVPC = true then
    getVpcPublicIpList (config.vpcGetPublicIpInstanceList (vpcListRequest d config))
  else
    getClassicPublicIpList (config.classicGetPublicIpInstanceList (classicListRequest d config))

/-- Go `dataSourceNcloudPublicIpRead` (source lines 114-141); `none` is a nil error.
Indexing an empty slice with `resources[0]` is a run-time panic. -/
def dataSourceNcloudPublicIpRead (reMatch : String → Bool → String → Bool)
    (config : ProviderConfig) (d : PublicIpData) : Outcome (Option Err × PublicIpData) :=
  match listPublicIps config d with
  | Outcome.panic => Outcome.panic
  | Outcome.done (Except.error err) => Outcome.done (some err, d)
  | Outcome.done (Except.ok resources) =>
    let resources1 :=
      if d.filter ≠ [] then ApplyFilters reMatch d.filter resources publicIpSchemaKeys
      else resources
    match validateOneResult resources1.length with
    | some err => Outcome.done (some err, d)
    | none =>
      match resources1 with
      | [] => Outcome.panic
      | r :: _ => Outcome.done (none, SetSingularResourceDataFromMapSchema d r)

/-- A record satisfies every predicate of a filter set: each predicate names a schema field
and matches the record. -/
def satisfiesAll (reMatch : String → Bool → String → Bool) (schemaKeys : List String)
    (filters : List FilterPredicate) (r : Record) : Bool :=
  filters.all fun p => decide (p.name ∈ schemaKeys) && predicateMatches reMatch p r

/-- In the list `l`, the record `r` is the one and only entry for which `q` holds. -/
def isOnlyMatch (q : Record → Bool) (l : List Record) (r : Record) : Prop :=
  ∃ pre post, l = pre ++ r :: post ∧ q r = true ∧ ∀ x ∈ pre ++ post, q x = false

/-- A pattern matcher that matches nothing; the sample filters are literal. -/
def noPattern : String → Bool → String → Bool := fun _ _ _ => false

/-- Three classic raw records, numbered 101, 102 and 103; only the second has an associated
server, number "9", named "web". -/
def threeClassicRecords : List (Option ClassicPublicIpInstance) :=
  [ some { sampleClassic (some createdStatus) none with PublicIpInstanceNo := some "101" }
  , some { sampleClassic (some createdStatus)
            (some { ServerInstanceNo := some "9", ServerName := some "web" }) with
          PublicIpInstanceNo := some "102" }
  , some { sampleClassic (some createdStatus) none with PublicIpInstanceNo := some "103" } ]

/-- A classic-flavor provider whose list call answers with the three sample records. -/
def threeRecordConfig : ProviderConfig :=
  { SupportVPC := false
    RegionNo := "1"
    RegionCode := "KR"
    classicGetPublicIpInstanceList := fun _ => Except.ok threeClassicRecords
    vpcGetPublicIpInstanceList := fun _ => Except.ok [] }

/-- The data-source arguments with the given filter block and nothing else set. -/
def filterOnly (filters : List FilterPredicate) : PublicIpData :=
  { id := "", is_associated := false, zone := "", filter := filters, resource := none }

/-- The canonical record of the second sample record. -/
def associatedRecord : Record :=
  [("id", Value.str "102"), ("instance_no", Value.str "102"), ("public_ip_no", Value.str "102"),
    ("public_ip", Value.str "10.0.0.1"), ("description", Value.str "edge"),
    ("server_instance_no", Value.str "9"), ("server_name", Value.str "web"),
    ("status", Value.str "CREAT")]

/-- The canonical record of a sample record without an associated server. -/
def unassociatedRecord (no : String) : Record :=
  [("id", Value.str no), ("instance_no", Value.str no), ("public_ip_no", Value.str no),
    ("public_ip", Value.str "10.0.0.1"), ("description", Value.str "edge"),
    ("server_instance_no", Value.null), ("server_name", Value.null),
    ("status", Value.str "CREAT")]

/-- The literal filter `is_associated = "true"`. -/
def isAssociatedFilter : FilterPredicate :=
  { name := "is_associated", values := ["true"], regex := false, caseSensitive := true }

/-- The literal filter `server_name = "web"`. -/
def serverNameFilter : FilterPredicate :=
  { name := "server_name", values := ["web"], regex := false, caseSensitive := true }

/-! ## Repository data source and message texts -/

/-- Go `dataSousrceNcloudSourceCommitRepositoryRead` (source file
`data_source_ncloud_sourcecommit_repository.go`, lines 51-90). -/
def dataSousrceNcloudSourceCommitRepositoryRead (api : V2Api G) (d : ResourceData)
    (w : World G) : Outcome (Diagnostics × ResourceData × World G) :=
  match getRepository api d.name w with
  | (Except.error _, w1) =>
    Outcome.done
      ([{ Severity := Severity.Error
          Summary := "Unable to search repository"
          Detail := "Unable to search repository - detail" }], d, w1)
  | (Except.ok none, w1) =>
    Outcome.done
      ([{ Severity := Severity.Error
          Summary := "there is no such repository"
          Detail := "there is no such repository - detail" }], { d with id := "" }, w1)
  | (Except.ok (some repository), w1) =>
    match setRepositoryAttributes d repository with
    | Outcome.panic => Outcome.panic
    | Outcome.done d1 => Outcome.done ([], d1, w1)

/-- The character list `p` is an initial segment of the character list `s`. -/
def startsWithChars (s p : List Char) : Bool :=
  match s, p with
  | _, [] => true
  | [], _ :: _ => false
  | c :: cs, q :: qs => decide (c = q) && startsWithChars cs qs

/-- The character list `sub` occurs in the character list `s`. -/
def containsChars (s sub : List Char) : Bool :=
  match s with
  | [] => startsWithChars [] sub
  | c :: cs => startsWithChars (c :: cs) sub || containsChars cs sub

/-- The text `msg` contains the text `part`. -/
def mentions (msg part : String) : Bool := containsChars msg.data part.data

/-- The text contains the identity of the resource: its name when one is set, or its id when
one is set. -/
def containsIdentity (d : ResourceData) (text : String) : Bool :=
  (decide (d.name ≠ "") && mentions text d.name) || (decide (d.id ≠ "") && mentions text d.id)

/-- The message text of a diagnostic (summary or detail) contains the identity of the
resource. -/
def diagnosticNamesResource (d : ResourceData) (diagnostic : Diagnostic) : Bool :=
  containsIdentity d diagnostic.Summary || containsIdentity d diagnostic.Detail

/-- A gateway on which the repository "tf-1234-repo" is visible and every delete call fails
with the message "503". -/
def deleteFailsApi : V2Api Unit :=
  { oneRepoApi with RepositoryDelete := fun _ g => (Except.error "503", g) }

/-! ## Theorems: the refresh functions of the two waits -/

/-- C1 (evaluation at the failing input): on a gateway whose by-name lookup succeeds with
no repository, the refresh function of the activation wait reports the label "NULL" with
the requested name as payload and no error; "NULL" is neither in the Pending set nor in the
Target set of the wait, and the SDK engine aborts the wait on it after this single poll
instead of polling again. -/
theorem activeRefresh_absent_reports_NULL :
    activeRefresh absentApi "tf-1234-repo" freshWorld =
        Outcome.done
          ({ result := Payload.str "tf-1234-repo", state := "NULL", err := none },
            { remote := (), calls := [Call.detailGet "tf-1234-repo"] }) ∧
      "NULL" ∉ (activeConf absentApi (sampleData "" "tf-1234-repo") "tf-1234-repo").Pending ∧
      "NULL" ∉ (activeConf absentApi (sampleData "" "tf-1234-repo") "tf-1234-repo").Target ∧
      WaitForStateContext sdkEngine
          (activeConf absentApi (sampleData "" "tf-1234-repo") "tf-1234-repo") freshWorld =
        Outcome.done
          (Except.error (unexpectedStateError ["RESOLVE"] "NULL"),
            { remote := (), calls := [Call.detailGet "tf-1234-repo"] }) := by
  refine ⟨rfl, ?_, ?_, rfl⟩ <;> simp [activeConf]

/-- C2: when the by-name lookup succeeds, the refresh function of the activation wait
returns normally, after exactly that one detail call; it reports the target label "RESOLVE"
if and only if the lookup returned a repository whose name (`ncloud.StringValue` of its
`Name`) equals the requested name, and then the payload is that repository; a repository
with a different name is reported as "PENDING" with no error. -/
theorem activeRefresh_target_iff_same_name (api : V2Api G) (name : String) (w : World G)
    (res : Option GetRepositoryDetailResponseResult) (g1 : G)
    (hget : api.RepositoryDetailGet name w.remote = (Except.ok res, g1)) :
    ∃ out : RefreshResult,
      activeRefresh api name w =
          Outcome.done (out, { remote := g1, calls := w.calls ++ [Call.detailGet name] }) ∧
        out.err = none ∧
        (out.state = "RESOLVE" ↔ ∃ r, res = some r ∧ StringValue r.Name = name) ∧
        (∀ r, res = some r → StringValue r.Name = name → out.result = Payload.repo r) ∧
        (∀ r, res = some r → StringValue r.Name ≠ name →
          out.state = "PENDING" ∧ out.result = Payload.nil) := by
  cases res with
  | none =>
    refine ⟨{ result := Payload.str name, state := "NULL", err := none }, ?_, rfl, ?_, ?_, ?_⟩
    · simp [activeRefresh, getRepository, hget]
    · simp
    · intro r h; cases h
    · intro r h; cases h
  | some r0 =>
    by_cases hn : StringValue r0.Name = name
    · refine ⟨{ result := Payload.repo r0, state := "RESOLVE", err := none },
        ?_, rfl, ?_, ?_, ?_⟩
      · simp [activeRefresh, getRepository, hget, hn]
      · simp [hn]
      · intro r h _; cases h; rfl
      · intro r h hne; cases h; exact absurd hn hne
    · refine ⟨{ result := Payload.nil, state := "PENDING", err := none },
        ?_, rfl, ?_, ?_, ?_⟩
      · simp [activeRefresh, getRepository, hget, hn]
      · simp [hn]
      · intro r h he; cases h; exact absurd he hn
      · intro r h _; exact ⟨rfl, rfl⟩

/-- Witness for C2 on the one-repository gateway: the lookup of "tf-1234-repo" succeeds, and
the refresh function reports "RESOLVE" with the repository as payload. -/
theorem activeRefresh_target_iff_same_name_witness :
    ∃ out : RefreshResult,
      activeRefresh oneRepoApi "tf-1234-repo" freshWorld =
          Outcome.done
            (out, { remote := (), calls := freshWorld.calls ++ [Call.detailGet "tf-1234-repo"] }) ∧
        out.err = none ∧
        (out.state = "RESOLVE" ↔
          ∃ r, some (sampleRepository 55 "tf-1234-repo") = some r ∧
            StringValue r.Name = "tf-1234-repo") ∧
        (∀ r, some (sampleRepository 55 "tf-1234-repo") = some r →
          StringValue r.Name = "tf-1234-repo" → out.result = Payload.repo r) ∧
        (∀ r, some (sampleRepository 55 "tf-1234-repo") = some r →
          StringValue r.Name ≠ "tf-1234-repo" →
            out.state = "PENDING" ∧ out.result = Payload.nil) :=
  activeRefresh_target_iff_same_name oneRepoApi "tf-1234-repo" freshWorld
    (some (sampleRepository 55 "tf-1234-repo")) () rfl

/-- Entries whose decimal id differs from the id looked for are skipped by the loop of
`getRepositoryById`. -/
theorem getRepositoryByIdLoop_skip (api : V2Api G) (id : String) (w : World G)
    (pre rest : List (Option GetRepositoryListResponseResultRepository))
    (hpre : ∀ x ∈ pre, ∃ y j, x = some y ∧ y.Id = some j ∧ Itoa j ≠ id) :
    getRepositoryByIdLoop api id (pre ++ rest) w = getRepositoryByIdLoop api id rest w := by
  induction pre with
  | nil => rfl
  | cons x pre ih =>
    obtain ⟨y, j, hx, hy, hj⟩ := hpre x (List.mem_cons_self x pre)
    subst hx
    have ih1 := ih (fun z hz => hpre z (List.mem_cons_of_mem _ hz))
    simp only [List.cons_append, getRepositoryByIdLoop, hy, hj, if_false]
    exact ih1

/-- The first entry whose decimal id equals the id looked for decides the lookup: its name
is queried with `getRepository`. -/
theorem getRepositoryByIdLoop_first (api : V2Api G) (id : String) (w : World G)
    (pre post : List (Option GetRepositoryListResponseResultRepository))
    (entry : GetRepositoryListResponseResultRepository) (i : Int) (n : String)
    (hpre : ∀ x ∈ pre, ∃ y j, x = some y ∧ y.Id = some j ∧ Itoa j ≠ id)
    (hid : entry.Id = some i) (hi : Itoa i = id) (hname : entry.Name = some n) :
    getRepositoryByIdLoop api id (pre ++ some entry :: post) w =
      Outcome.done (getRepository api n w) := by
  rw [getRepositoryByIdLoop_skip api id w pre _ hpre]
  simp [getRepositoryByIdLoop, hid, hi, hname]

/-- C3: the refresh function of the deletion wait follows the lookup by id case by case.
It reports "PENDING" with the fetched repository as payload exactly when `getRepositoryById`
returns a repository, reports the target label "RESOLVE" exactly when `getRepositoryById`
succeeds with nothing, and hands on the error with an empty label exactly when
`getRepositoryById` fails; the latter happens when the list call fails and when the detail
call for the first entry with the stored id fails. -/
theorem deletionRefresh_follows_lookup (api : V2Api G) (d : ResourceData) (w : World G) :
    (∀ repo w1, getRepositoryById api d.id w = Outcome.done (Except.ok (some repo), w1) ↔
        deletionRefresh api d w =
          Outcome.done ({ result := Payload.repo repo, state := "PENDING", err := none }, w1)) ∧
      (∀ w1, getRepositoryById api d.id w = Outcome.done (Except.ok none, w1) ↔
        deletionRefresh api d w =
          Outcome.done ({ result := Payload.str d.id, state := "RESOLVE", err := none }, w1)) ∧
      (∀ e w1, getRepositoryById api d.id w = Outcome.done (Except.error e, w1) ↔
        deletionRefresh api d w =
          Outcome.done ({ result := Payload.nil, state := "", err := some e }, w1)) ∧
      (∀ out w1, deletionRefresh api d w = Outcome.done (out, w1) →
        (out.state = "PENDING" ↔
          ∃ repo, getRepositoryById api d.id w = Outcome.done (Except.ok (some repo), w1))) ∧
      (∀ out w1, deletionRefresh api d w = Outcome.done (out, w1) →
        (out.state = "RESOLVE" ↔
          getRepositoryById api d.id w = Outcome.done (Except.ok none, w1))) ∧
      (∀ e g1, api.RepositoryListGet w.remote = (Except.error e, g1) →
        deletionRefresh api d w =
          Outcome.done
            ({ result := Payload.nil, state := "", err := some e },
              { remote := g1, calls := w.calls ++ [Call.listGet] })) ∧
      (∀ pre post entry i n e g1 g2,
        api.RepositoryListGet w.remote = (Except.ok (some (pre ++ some entry :: post)), g1) →
        (∀ x ∈ pre, ∃ y j, x = some y ∧ y.Id = some j ∧ Itoa j ≠ d.id) →
        entry.Id = some i → Itoa i = d.id → entry.Name = some n →
        api.RepositoryDetailGet n g1 = (Except.error e, g2) →
        deletionRefresh api d w =
          Outcome.done
            ({ result := Payload.nil, state := "", err := some e },
              { remote := g2, calls := w.calls ++ [Call.listGet, Call.detailGet n] })) := by
  refine ⟨?_, ?_, ?_, ?_, ?_, ?_, ?_⟩
  · intro repo w1
    unfold deletionRefresh
    rcases h : getRepositoryById api d.id w with ⟨(_ | (_ | _)), w2⟩ | _ <;> simp
  · intro w1
    unfold deletionRefresh
    rcases h : getRepositoryById api d.id w with ⟨(_ | (_ | _)), w2⟩ | _ <;> simp
  · intro e w1
    unfold deletionRefresh
    rcases h : getRepositoryById api d.id w with ⟨(_ | (_ | _)), w2⟩ | _ <;> simp
  · intro out w1
    unfold deletionRefresh
    rcases h : getRepositoryById api d.id w with ⟨(_ | (_ | _)), w2⟩ | _ <;> simp
    · rintro rfl rfl; simp
    · rintro rfl rfl; simp
    · rintro rfl rfl; simp
  · intro out w1
    unfold deletionRefresh
    rcases h : getRepositoryById api d.id w with ⟨(_ | (_ | _)), w2⟩ | _ <;> simp
    · rintro rfl rfl; simp
    · rintro rfl rfl; simp
    · rintro rfl rfl; simp
  · intro e g1 hl
    simp [deletionRefresh, getRepositoryById, getRepositoryList, hl]
  · intro pre post entry i n e g1 g2 hl hpre hid hi hname hdet
    simp only [deletionRefresh, getRepositoryById, getRepositoryList, hl]
    rw [getRepositoryByIdLoop_first api d.id _ pre post entry i n hpre hid hi hname]
    simp [getRepository, hdet]

/-- Witness for C3 on the one-repository gateway: the lookup of id "55" returns the
repository, so the refresh function of the deletion wait reports "PENDING" with it. -/
theorem deletionRefresh_follows_lookup_witness :
    deletionRefresh oneRepoApi (sampleData "55" "") freshWorld =
      Outcome.done
        ({ result := Payload.repo (sampleRepository 55 "tf-1234-repo"), state := "PENDING",
           err := none },
          { remote := (), calls := [Call.listGet, Call.detailGet "tf-1234-repo"] }) :=
  ((deletionRefresh_follows_lookup oneRepoApi (sampleData "55" "") freshWorld).1
    (sampleRepository 55 "tf-1234-repo")
    { remote := (), calls := [Call.listGet, Call.detailGet "tf-1234-repo"] }).mp rfl

/-! ## Theorems: Read -/

/-- C4: when the lookup made by Read succeeds with no repository, Read clears the local id,
leaves every other attribute as it was and returns no diagnostics; this covers the by-name
lookup answering nil and the by-id lookup finding no entry with the stored id.  When the
lookup fails, Read returns one error diagnostic and leaves the local state, the id included,
as it was; and Read returns a diagnostic only in that case. -/
theorem read_absent_clears_id (api : V2Api G) (d : ResourceData) (w : World G) :
    (∀ w1, readLookup api d w = Outcome.done (Except.ok none, w1) →
        resourceNcloudSourceCommitRepositoryRead api d w =
          Outcome.done ([], { d with id := "" }, w1)) ∧
      (∀ g1, d.name ≠ "" → api.RepositoryDetailGet d.name w.remote = (Except.ok none, g1) →
        resourceNcloudSourceCommitRepositoryRead api d w =
          Outcome.done
            ([], { d with id := "" },
              { remote := g1, calls := w.calls ++ [Call.detailGet d.name] })) ∧
      (∀ l g1, d.name = "" → api.RepositoryListGet w.remote = (Except.ok (some l), g1) →
        (∀ x ∈ l, ∃ y j, x = some y ∧ y.Id = some j ∧ Itoa j ≠ d.id) →
        resourceNcloudSourceCommitRepositoryRead api d w =
          Outcome.done
            ([], { d with id := "" }, { remote := g1, calls := w.calls ++ [Call.listGet] })) ∧
      (∀ e w1, readLookup api d w = Outcome.done (Except.error e, w1) →
        ∃ diagnostic, diagnostic.Severity = Severity.Error ∧
          resourceNcloudSourceCommitRepositoryRead api d w =
            Outcome.done ([diagnostic], d, w1)) ∧
      (∀ diags d1 w1,
        resourceNcloudSourceCommitRepositoryRead api d w = Outcome.done (diags, d1, w1) →
        diags ≠ [] →
        (∃ e, readLookup api d w = Outcome.done (Except.error e, w1)) ∧ d1 = d) := by
  refine ⟨?_, ?_, ?_, ?_, ?_⟩
  · intro w1 h
    simp [resourceNcloudSourceCommitRepositoryRead, h]
  · intro g1 hn hget
    simp [resourceNcloudSourceCommitRepositoryRead, readLookup, hn, getRepository, hget]
  · intro l g1 hn hlist hl
    have hloop := getRepositoryByIdLoop_skip api d.id
      { remote := g1, calls := w.calls ++ [Call.listGet] } l [] hl
    simp only [List.append_nil] at hloop
    simp [resourceNcloudSourceCommitRepositoryRead, readLookup, hn, getRepositoryById,
      getRepositoryList, hlist, hloop, getRepositoryByIdLoop]
  · intro e w1 h
    exact ⟨{ Severity := Severity.Error
             Summary := "Unable to search repository"
             Detail := "Unable to search repository - detail repository : " ++ d.name },
      rfl, by simp [resourceNcloudSourceCommitRepositoryRead, h]⟩
  · intro diags d1 w1
    unfold resourceNcloudSourceCommitRepositoryRead
    rcases h : readLookup api d w with ⟨(e | (_ | repo)), w2⟩ | _
    · simp only [Outcome.done.injEq, Prod.mk.injEq]
      rintro ⟨_, rfl, rfl⟩ _
      exact ⟨⟨e, rfl, rfl⟩, rfl⟩
    · simp only [Outcome.done.injEq, Prod.mk.injEq]
      rintro ⟨rfl, _, _⟩ hne
      exact absurd rfl hne
    · simp only
      rcases setRepositoryAttributes d repo with d2 | _
      · simp only [Outcome.done.injEq, Prod.mk.injEq]
        rintro ⟨rfl, _, _⟩ hne
        exact absurd rfl hne
      · intro h1; cases h1
    · intro h1; cases h1

/-- Witness for C4 on the gateway without repositories: Read of the named resource clears
the id and returns no diagnostics. -/
theorem read_absent_clears_id_witness :
    resourceNcloudSourceCommitRepositoryRead absentApi (sampleData "55" "tf-1234-repo")
        freshWorld =
      Outcome.done
        ([], sampleData "" "tf-1234-repo",
          { remote := (), calls := [Call.detailGet "tf-1234-repo"] }) :=
  (read_absent_clears_id absentApi (sampleData "55" "tf-1234-repo") freshWorld).2.1 ()
    (by decide) rfl

/-! ## Theorems: Create and Delete -/

/-- C6: when the gateway create call fails, Create returns exactly one error diagnostic
whose detail is the gateway error text, leaves the local state as it was, and the call log
grows by the create call alone: no activation poll and no Read take place. -/
theorem create_gateway_error_stops (eng : Engine) (api : V2Api G) (d : ResourceData)
    (w : World G) (e : Err) (g1 : G)
    (hcreate : api.RepositoryCreate (createRequest d) w.remote = (Except.error e, g1)) :
    resourceNcloudSourceCommitRepositoryCreate eng api d w =
      Outcome.done
        ([{ Severity := Severity.Error, Summary := "Fail to create repository", Detail := e }],
          d, { remote := g1, calls := w.calls ++ [Call.create (createRequest d)] }) := by
  simp [resourceNcloudSourceCommitRepositoryCreate, hcreate]

/-- Witness for C6 on the gateway whose every call fails with "503". -/
theorem create_gateway_error_stops_witness :
    resourceNcloudSourceCommitRepositoryCreate sdkEngine failingApi
        (sampleData "" "tf-1234-repo") freshWorld =
      Outcome.done
        ([{ Severity := Severity.Error, Summary := "Fail to create repository",
            Detail := "503" }],
          sampleData "" "tf-1234-repo",
          { remote := (),
            calls := freshWorld.calls ++ [Call.create (createRequest (sampleData "" "tf-1234-repo"))] }) :=
  create_gateway_error_stops sdkEngine failingApi (sampleData "" "tf-1234-repo") freshWorld
    "503" () rfl

/-- One poll of the activation wait never panics and issues exactly one detail call. -/
theorem activeRefresh_calls (api : V2Api G) (name : String) (w : World G) :
    ∃ out g1, activeRefresh api name w =
      Outcome.done (out, { remote := g1, calls := w.calls ++ [Call.detailGet name] }) := by
  unfold activeRefresh getRepository
  rcases h : api.RepositoryDetailGet name w.remote with ⟨(e | (_ | repo)), g1⟩
  · exact ⟨_, g1, rfl⟩
  · exact ⟨_, g1, rfl⟩
  · by_cases hn : StringValue repo.Name = name
    · exact ⟨{ result := Payload.repo repo, state := "RESOLVE", err := none }, g1,
        by simp [hn]⟩
    · exact ⟨{ result := Payload.nil, state := "PENDING", err := none }, g1, by simp [hn]⟩

/-- The polling loop of the activation wait always returns, and the calls it issues are
detail calls for the requested name only. -/
theorem waitLoop_active_calls (eng : Engine) (api : V2Api G) (d : ResourceData)
    (name : String) (fuel : Nat) :
    ∀ (tick : Nat) (last : String) (w : World G),
      ∃ r g1 k, waitLoop eng (activeConf api d name) fuel tick last w =
        Outcome.done
          (r, { remote := g1, calls := w.calls ++ List.replicate k (Call.detailGet name) }) := by
  induction fuel with
  | zero =>
    intro tick last w
    exact ⟨Except.error (timeoutError (activeConf api d name).Target last), w.remote, 0,
      by simp [waitLoop]⟩
  | succ fuel ih =>
    intro tick last w
    obtain ⟨out, g1, hout⟩ := activeRefresh_calls api name w
    have hrec : ∀ (t : Nat) (l : String),
        ∃ r g2 k, waitLoop eng (activeConf api d name) fuel t l
            { remote := g1, calls := w.calls ++ [Call.detailGet name] } =
          Outcome.done
            (r, { remote := g2,
                  calls := w.calls ++ List.replicate k (Call.detailGet name) }) := by
      intro t l
      obtain ⟨r, g2, k, hk⟩ := ih t l { remote := g1, calls := w.calls ++ [Call.detailGet name] }
      refine ⟨r, g2, k + 1, ?_⟩
      rw [hk]
      simp [List.replicate_succ]
    have hone : w.calls ++ [Call.detailGet name] =
        w.calls ++ List.replicate 1 (Call.detailGet name) := by simp
    have hconf : (activeConf api d name).Refresh w =
        Outcome.done (out, { remote := g1, calls := w.calls ++ [Call.detailGet name] }) := hout
    simp only [waitLoop, hconf]
    split
    · exact ⟨_, g1, 1, by rw [hone]⟩
    · split
      · split
        · exact ⟨_, g1, 1, by rw [hone]⟩
        · split
          · exact ⟨_, g1, 1, by rw [hone]⟩
          · exact hrec _ _
      · split
        · exact ⟨_, g1, 1, by rw [hone]⟩
        · split
          · exact hrec _ _
          · split
            · exact ⟨_, g1, 1, by rw [hone]⟩
            · exact hrec _ _

/-- The activation wait always returns, and the calls it issues are detail calls for the
requested name only. -/
theorem waitForSourceCommitRepositoryActive_calls (eng : Engine) (api : V2Api G)
    (d : ResourceData) (name : String) (w : World G) :
    ∃ r g1 k, waitForSourceCommitRepositoryActive eng api d name w =
      Outcome.done
        (r, { remote := g1, calls := w.calls ++ List.replicate k (Call.detailGet name) }) := by
  obtain ⟨r, g1, k, hk⟩ := waitLoop_active_calls eng api d name d.timeoutCreate 0 "" w
  have hk1 : WaitForStateContext eng (activeConf api d name) w =
      Outcome.done
        (r, { remote := g1, calls := w.calls ++ List.replicate k (Call.detailGet name) }) := hk
  unfold waitForSourceCommitRepositoryActive
  rw [hk1]
  cases r with
  | error e => exact ⟨_, g1, k, rfl⟩
  | ok p => exact ⟨_, g1, k, rfl⟩

/-- C7: whenever Delete returns an error diagnostic, the local state (id and attributes) is
the one before the call.  The three failing stages are covered one by one: a failed
activation wait is returned at once, and then the call log has grown by detail calls only,
so the gateway delete has not been invoked; a failed gateway delete is returned after the
delete call; a failed deletion wait is returned after it. -/
theorem delete_failure_keeps_state (eng : Engine) (api : V2Api G) (d : ResourceData)
    (w : World G) :
    (∀ diags d1 w1,
        resourceNcloudSourceCommitRepositoryDelete eng api d w = Outcome.done (diags, d1, w1) →
        HasError diags = true → d1 = d) ∧
      (∀ e w1, waitForSourceCommitRepositoryActive eng api d d.name w =
          Outcome.done (some e, w1) →
        resourceNcloudSourceCommitRepositoryDelete eng api d w =
            Outcome.done (FromErr e, d, w1) ∧
          HasError (FromErr e) = true ∧
          (∃ k, w1.calls = w.calls ++ List.replicate k (Call.detailGet d.name)) ∧
          (∀ n, Call.delete n ∈ w1.calls → Call.delete n ∈ w.calls)) ∧
      (∀ w1 e g2, waitForSourceCommitRepositoryActive eng api d d.name w =
          Outcome.done (none, w1) →
        api.RepositoryDelete d.name w1.remote = (Except.error e, g2) →
        resourceNcloudSourceCommitRepositoryDelete eng api d w =
          Outcome.done
            (FromErr e, d, { remote := g2, calls := w1.calls ++ [Call.delete d.name] })) ∧
      (∀ w1 g2 e w3, waitForSourceCommitRepositoryActive eng api d d.name w =
          Outcome.done (none, w1) →
        api.RepositoryDelete d.name w1.remote = (Except.ok (), g2) →
        waitForSourceCommitRepositoryDeletion eng api d
            { remote := g2, calls := w1.calls ++ [Call.delete d.name] } =
          Outcome.done (some e, w3) →
        resourceNcloudSourceCommitRepositoryDelete eng api d w =
          Outcome.done (FromErr e, d, w3)) := by
  refine ⟨?_, ?_, ?_, ?_⟩
  · intro diags d1 w1
    unfold resourceNcloudSourceCommitRepositoryDelete
    rcases waitForSourceCommitRepositoryActive eng api d d.name w with ⟨(_ | e), w2⟩ | _
    · simp only
      rcases api.RepositoryDelete d.name w2.remote with ⟨(e2 | u), g2⟩
      · simp only [Outcome.done.injEq, Prod.mk.injEq]
        rintro ⟨_, rfl, _⟩ _
        rfl
      · simp only
        rcases waitForSourceCommitRepositoryDeletion eng api d
          { remote := g2, calls := w2.calls ++ [Call.delete d.name] } with ⟨(_ | e3), w3⟩ | _
        · simp only [Outcome.done.injEq, Prod.mk.injEq]
          rintro ⟨_, rfl, _⟩ _
          rfl
        · simp only [Outcome.done.injEq, Prod.mk.injEq]
          rintro ⟨_, rfl, _⟩ _
          rfl
        · intro h; cases h
    · simp only [Outcome.done.injEq, Prod.mk.injEq]
      rintro ⟨_, rfl, _⟩ _
      rfl
    · intro h; cases h
  · intro e w1 hwait
    obtain ⟨r, g1, k, hk⟩ := waitForSourceCommitRepositoryActive_calls eng api d d.name w
    rw [hk] at hwait
    simp only [Outcome.done.injEq, Prod.mk.injEq] at hwait
    obtain ⟨rfl, rfl⟩ := hwait
    refine ⟨?_, ?_, ⟨k, rfl⟩, ?_⟩
    · simp [resourceNcloudSourceCommitRepositoryDelete, hk]
    · simp [HasError, FromErr]
    · intro n hn
      simp only [List.mem_append, List.mem_replicate] at hn
      rcases hn with hn | ⟨_, hn⟩
      · exact hn
      · cases hn
  · intro w1 e g2 hwait hdel
    simp [resourceNcloudSourceCommitRepositoryDelete, hwait, hdel]
  · intro w1 g2 e w3 hwait hdel hwait2
    simp [resourceNcloudSourceCommitRepositoryDelete, hwait, hdel, hwait2]

/-- Witness for C7 on the gateway whose every call fails: the activation wait fails on its
first poll, Delete returns that error and the local state is the one before the call. -/
theorem delete_failure_keeps_state_witness :
    resourceNcloudSourceCommitRepositoryDelete sdkEngine failingApi
          (sampleData "55" "tf-1234-repo") freshWorld =
        Outcome.done
          (FromErr
            ("error waiting for SourceCommit Repository id : (tf-1234-repo) to become " ++
              "activating: Repository response error , name : (tf-1234-repo) to become " ++
              "activating: 503"),
            sampleData "55" "tf-1234-repo",
            { remote := (), calls := [Call.detailGet "tf-1234-repo"] }) ∧
      sampleData "55" "tf-1234-repo" = sampleData "55" "tf-1234-repo" :=
  ⟨rfl,
    (delete_failure_keeps_state sdkEngine failingApi (sampleData "55" "tf-1234-repo")
      freshWorld).1 _ (sampleData "55" "tf-1234-repo")
      { remote := (), calls := [Call.detailGet "tf-1234-repo"] } rfl rfl⟩

/-! ## Theorems: Read by id and Read by name -/

/-- C5 as stated fails.  First input: the list holds the id 7 twice, under "other" and then
under "repo", and the detail lookup of "repo" returns a repository with id 7; Read on the
state holding only the id "7" follows the first entry, finds nothing under "other" and
clears the id, while Read on the state named "repo" resolves the repository.  Second input:
the entry with id 7 has the empty name; Read on a state whose name is that empty name and
whose id is unset looks up by id and clears the id, while Read on the state holding the id
"7" resolves the repository. -/
theorem read_by_id_differs_from_read_by_name :
    (some { Id := some 7, Name := some "repo" } ∈
        [some ({ Id := some 7, Name := some "other" } :
            GetRepositoryListResponseResultRepository),
          some { Id := some 7, Name := some "repo" }] ∧
      duplicateIdApi.RepositoryDetailGet "repo" () =
        (Except.ok (some (sampleRepository 7 "repo")), ()) ∧
      (sampleRepository 7 "repo").Id = some 7 ∧
      resourceNcloudSourceCommitRepositoryRead duplicateIdApi (sampleData (Itoa 7) "")
          freshWorld =
        Outcome.done
          ([], sampleData "" "", { remote := (), calls := [Call.listGet, Call.detailGet "other"] }) ∧
      resourceNcloudSourceCommitRepositoryRead duplicateIdApi (sampleData "" "repo")
          freshWorld =
        Outcome.done
          ([], { sampleData "7" "repo" with
                 idAttr := "7", description := "demo", creator := "alice",
                 git_https := "https://git/x", git_ssh := "ssh://git/x", filesafer := true },
            { remote := (), calls := [Call.detailGet "repo"] })) ∧
    (emptyNameApi.RepositoryDetailGet "" () = (Except.ok (some (sampleRepository 7 "")), ()) ∧
      resourceNcloudSourceCommitRepositoryRead emptyNameApi (sampleData (Itoa 7) "")
          freshWorld =
        Outcome.done
          ([], { sampleData "7" "" with
                 idAttr := "7", description := "demo", creator := "alice",
                 git_https := "https://git/x", git_ssh := "ssh://git/x", filesafer := true },
            { remote := (), calls := [Call.listGet, Call.detailGet ""] }) ∧
      resourceNcloudSourceCommitRepositoryRead emptyNameApi (sampleData "" "") freshWorld =
        Outcome.done ([], sampleData "" "", { remote := (), calls := [Call.listGet] })) := by
  refine ⟨⟨by simp, rfl, rfl, rfl, rfl⟩, rfl, rfl, rfl⟩

/-- C5, amended: let the list call succeed and let the first entry whose decimal id equals
the stored id carry a non-empty name `n`, and let the detail lookup of `n` return the same
repository `R`, with id `i`, both after the list call and directly.  Then Read on a state
holding only the id resolves `R` through the list call followed by the detail call for that
entry's name, Read on a state named `n` resolves it through the detail call alone, and both
leave the same id (the decimal text of `i`) and the same attributes.  When `R` lacks its
Created, Git or Linked part, both Reads panic alike. -/
theorem read_by_id_matches_read_by_name (api : V2Api G) (w : World G)
    (dId dName : ResourceData)
    (pre post : List (Option GetRepositoryListResponseResultRepository))
    (entry : GetRepositoryListResponseResultRepository) (i : Int) (n : String)
    (R : GetRepositoryDetailResponseResult) (g1 g2 g3 : G)
    (hIdName : dId.name = "") (hIdId : dId.id = Itoa i)
    (hName : dName.name = n) (hne : n ≠ "")
    (hlist : api.RepositoryListGet w.remote = (Except.ok (some (pre ++ some entry :: post)), g1))
    (hpre : ∀ x ∈ pre, ∃ y j, x = some y ∧ y.Id = some j ∧ Itoa j ≠ Itoa i)
    (hentryId : entry.Id = some i) (hentryName : entry.Name = some n)
    (hdetailAfterList : api.RepositoryDetailGet n g1 = (Except.ok (some R), g2))
    (hdetail : api.RepositoryDetailGet n w.remote = (Except.ok (some R), g3))
    (hR : R.Id = some i) :
    ((R.Created = none ∨ R.Git = none ∨ R.Linked = none) ∧
        resourceNcloudSourceCommitRepositoryRead api dId w = Outcome.panic ∧
        resourceNcloudSourceCommitRepositoryRead api dName w = Outcome.panic) ∨
      (R.Created ≠ none ∧ R.Git ≠ none ∧ R.Linked ≠ none ∧
        ∃ d1 d2,
          resourceNcloudSourceCommitRepositoryRead api dId w =
              Outcome.done
                ([], d1,
                  { remote := g2, calls := w.calls ++ [Call.listGet, Call.detailGet n] }) ∧
            resourceNcloudSourceCommitRepositoryRead api dName w =
              Outcome.done ([], d2, { remote := g3, calls := w.calls ++ [Call.detailGet n] }) ∧
            sameIdAndAttributes d1 d2 ∧ d1.id = Itoa i ∧ d1.id = dId.id ∧
            d1.name = StringValue R.Name) := by
  have hlook1 : readLookup api dId w =
      Outcome.done
        (Except.ok (some R),
          { remote := g2, calls := w.calls ++ [Call.listGet, Call.detailGet n] }) := by
    simp only [readLookup, hIdName, if_true, getRepositoryById, getRepositoryList, hlist, hIdId]
    rw [getRepositoryByIdLoop_first api (Itoa i) _ pre post entry i n hpre hentryId rfl
      hentryName]
    simp [getRepository, hdetailAfterList]
  have hlook2 : readLookup api dName w =
      Outcome.done
        (Except.ok (some R), { remote := g3, calls := w.calls ++ [Call.detailGet n] }) := by
    simp [readLookup, hName, hne, getRepository, hdetail]
  obtain ⟨rid, rname, rdesc, rc, rg, rl⟩ := R
  simp only at hR
  subst hR
  unfold resourceNcloudSourceCommitRepositoryRead
  rw [hlook1, hlook2]
  cases rc with
  | none => left; simp [setRepositoryAttributes]
  | some c =>
    cases rg with
    | none => left; simp [setRepositoryAttributes]
    | some g =>
      cases rl with
      | none => left; simp [setRepositoryAttributes]
      | some l =>
        right
        refine ⟨by simp, by simp, by simp, _, _, rfl, rfl, ?_, rfl, ?_, rfl⟩
        · simp [sameIdAndAttributes]
        · simp [hIdId]

/-- Witness for the amended C5 on the one-repository gateway: Read on the state holding only
the id "55" and Read on the state named "tf-1234-repo" leave the same id and attributes. -/
theorem read_by_id_matches_read_by_name_witness :
    ∃ d1 d2,
      resourceNcloudSourceCommitRepositoryRead oneRepoApi (sampleData (Itoa 55) "")
          freshWorld =
        Outcome.done
          ([], d1, { remote := (), calls := [Call.listGet, Call.detailGet "tf-1234-repo"] }) ∧
      resourceNcloudSourceCommitRepositoryRead oneRepoApi (sampleData "" "tf-1234-repo")
          freshWorld =
        Outcome.done ([], d2, { remote := (), calls := [Call.detailGet "tf-1234-repo"] }) ∧
      sameIdAndAttributes d1 d2 ∧ d1.id = "55" := by
  have h := read_by_id_matches_read_by_name oneRepoApi freshWorld (sampleData (Itoa 55) "")
    (sampleData "" "tf-1234-repo") [] [] { Id := some 55, Name := some "tf-1234-repo" } 55
    "tf-1234-repo" (sampleRepository 55 "tf-1234-repo") () () () rfl rfl rfl (by decide) rfl
    (by simp) rfl rfl rfl rfl rfl
  rcases h with ⟨hbad, _⟩ | ⟨_, _, _, d1, d2, h1, h2, h3, h4, _⟩
  · simp [sampleRepository] at hbad
  · exact ⟨d1, d2, h1, h2, h3, h4⟩

/-! ## Lemmas on records -/

/-- Reading a key after an assignment. -/
theorem mapLookup_mapSet (m : Record) (k k1 : String) (v : Value) :
    mapLookup (mapSet m k v) k1 = if k = k1 then some v else mapLookup m k1 := by
  induction m with
  | nil => simp [mapSet, mapLookup]
  | cons p rest ih =>
    obtain ⟨k2, v2⟩ := p
    by_cases h : k2 = k
    · subst h
      by_cases h1 : k2 = k1
      · simp [mapSet, mapLookup, h1]
      · simp [mapSet, mapLookup, h1]
    · by_cases h1 : k2 = k1
      · subst h1
        simp [mapSet, mapLookup, h, Ne.symm h]
      · simp [mapSet, mapLookup, h, h1, ih]

/-- The field names after an assignment. -/
theorem mem_mapKeys_mapSet (m : Record) (k k1 : String) (v : Value) :
    k1 ∈ mapKeys (mapSet m k v) ↔ k1 = k ∨ k1 ∈ mapKeys m := by
  induction m with
  | nil => simp [mapSet, mapKeys]
  | cons p rest ih =>
    obtain ⟨k2, v2⟩ := p
    by_cases h : k2 = k
    · subst h
      simp [mapSet, mapKeys]
    · have ih1 : k1 ∈ List.map Prod.fst (mapSet rest k v) ↔
          k1 = k ∨ k1 ∈ List.map Prod.fst rest := ih
      simp only [mapSet, h, if_false, mapKeys, List.map_cons, List.mem_cons, ih1]
      tauto

/-- The field names after a guarded assignment. -/
theorem mem_mapKeys_ite (c : Prop) [Decidable c] (m : Record) (k k1 : String) (v : Value) :
    k1 ∈ mapKeys (if c then mapSet m k v else m) ↔ (k1 = k ∧ c) ∨ k1 ∈ mapKeys m := by
  by_cases h : c
  · simp [h, mem_mapKeys_mapSet]
  · simp [h]

/-- A guarded assignment to one key leaves every other key as it was. -/
theorem mapLookup_ite (c : Prop) [Decidable c] (m : Record) (k k1 : String) (v : Value)
    (hne : k ≠ k1) :
    mapLookup (if c then mapSet m k v else m) k1 = mapLookup m k1 := by
  by_cases h : c
  · simp [h, mapLookup_mapSet, hne]
  · simp [h]

/-- `SetStringIfNotNilAndEmpty` on a key already present adds no field name. -/
theorem mem_mapKeys_SetString (m : Record) (k k1 : String) (v : Option String)
    (hk : k ∈ mapKeys m) :
    k1 ∈ mapKeys (SetStringIfNotNilAndEmpty m k v) ↔ k1 ∈ mapKeys m := by
  unfold SetStringIfNotNilAndEmpty
  cases v with
  | none => simp
  | some s =>
    by_cases hs : s = ""
    · simp [hs]
    · simp only [hs, if_false, mem_mapKeys_mapSet]
      constructor
      · rintro (h | h)
        · rw [h]; exact hk
        · exact h
      · intro h; exact Or.inr h

/-- Reading a key after `SetStringIfNotNilAndEmpty`. -/
theorem mapLookup_SetString (m : Record) (k k1 : String) (v : Option String) :
    mapLookup (SetStringIfNotNilAndEmpty m k v) k1 =
      match v with
      | some s =>
        if s = "" then mapLookup m k1
        else if k = k1 then some (Value.str s) else mapLookup m k1
      | none => mapLookup m k1 := by
  unfold SetStringIfNotNilAndEmpty
  cases v with
  | none => rfl
  | some s =>
    by_cases hs : s = ""
    · simp [hs]
    · simp [hs, mapLookup_mapSet]

/-! ## Theorems: field names of the canonical records -/

/-- A classic raw record with its guaranteed fields is normalised, and the field names of
its canonical record are the seven base keys plus `status`, `kind_type` and `zone`, each
exactly when its guard holds. -/
theorem classicInstance_keys (r : ClassicPublicIpInstance) (h : classicGuaranteed r) :
    ∃ inst, classicInstance r = Outcome.done inst ∧
      ∀ k, k ∈ mapKeys inst ↔
        (k ∈ classicBaseKeys ∨ (k = "status" ∧ classicStatusPresent r) ∨
          (k = "kind_type" ∧ classicKindPresent r) ∨ (k = "zone" ∧ classicZonePresent r)) := by
  obtain ⟨h1, h2, h3⟩ := h
  obtain ⟨no, hno⟩ := Option.ne_none_iff_exists'.mp h1
  obtain ⟨ip, hip⟩ := Option.ne_none_iff_exists'.mp h2
  obtain ⟨desc, hdesc⟩ := Option.ne_none_iff_exists'.mp h3
  unfold classicInstance classicBaseKeys classicStatusPresent classicKindPresent
    classicZonePresent
  rw [hno, hip, hdesc]
  simp only
  cases r.ServerInstanceAssociatedWithPublicIp with
  | none =>
    refine ⟨_, rfl, ?_⟩
    intro k
    simp only [mem_mapKeys_ite]
    simp only [mapKeys, List.map_cons, List.map_nil]
    tauto
  | some srv =>
    refine ⟨_, rfl, ?_⟩
    intro k
    rw [mem_mapKeys_SetString, mem_mapKeys_SetString]
    · simp only [mem_mapKeys_ite]
      simp only [mapKeys, List.map_cons, List.map_nil]
      tauto
    · simp only [mem_mapKeys_ite]
      simp [mapKeys]
    · rw [mem_mapKeys_SetString]
      · simp only [mem_mapKeys_ite]
        simp [mapKeys]
      · simp only [mem_mapKeys_ite]
        simp [mapKeys]

/-- A VPC raw record with its guaranteed fields is normalised, and the field names of its
canonical record are the six base keys plus `status` exactly when its guard holds. -/
theorem vpcInstance_keys (r : VpcPublicIpInstance) (h : vpcGuaranteed r) :
    ∃ inst, vpcInstance r = Outcome.done inst ∧
      ∀ k, k ∈ mapKeys inst ↔ (k ∈ vpcBaseKeys ∨ (k = "status" ∧ vpcStatusPresent r)) := by
  obtain ⟨h1, h2, h3⟩ := h
  obtain ⟨no, hno⟩ := Option.ne_none_iff_exists'.mp h1
  obtain ⟨ip, hip⟩ := Option.ne_none_iff_exists'.mp h2
  obtain ⟨desc, hdesc⟩ := Option.ne_none_iff_exists'.mp h3
  have hkeys : ∀ k, k ∈ mapKeys
      (SetStringIfNotNilAndEmpty
        (SetStringIfNotNilAndEmpty
          [("id", Value.str no), ("public_ip_no", Value.str no), ("public_ip", Value.str ip),
            ("description", Value.str desc), ("server_instance_no", Value.null),
            ("server_name", Value.null)]
          "server_instance_no" r.ServerInstanceNo)
        "server_name" r.ServerName) ↔ k ∈ vpcBaseKeys := by
    intro k
    rw [mem_mapKeys_SetString, mem_mapKeys_SetString]
    · simp [mapKeys, vpcBaseKeys]
    · simp [mapKeys]
    · rw [mem_mapKeys_SetString]
      · simp [mapKeys]
      · simp [mapKeys]
  unfold vpcInstance vpcStatusPresent
  rw [hno, hip, hdesc]
  simp only
  by_cases hs : mapIndex (flattenCommonCode r.PublicIpInstanceStatus) "code" ≠ Value.null
  · rw [if_pos hs]
    refine ⟨_, rfl, ?_⟩
    intro k
    rw [mem_mapKeys_mapSet, hkeys]
    tauto
  · rw [if_neg hs]
    refine ⟨_, rfl, ?_⟩
    intro k
    rw [hkeys]
    tauto

/-- A classic raw record lacking a guaranteed field makes the loop body panic. -/
theorem classicInstance_panic (r : ClassicPublicIpInstance) (h : ¬ classicGuaranteed r) :
    classicInstance r = Outcome.panic := by
  rcases r with ⟨_ | no, _ | ip, _ | desc, _, _, _, _⟩ <;>
    first
      | rfl
      | exact absurd (by simp [classicGuaranteed]) h

/-- A VPC raw record lacking a guaranteed field makes the loop body panic. -/
theorem vpcInstance_panic (r : VpcPublicIpInstance) (h : ¬ vpcGuaranteed r) :
    vpcInstance r = Outcome.panic := by
  rcases r with ⟨_ | no, _ | ip, _ | desc, _, _, _⟩ <;>
    first
      | rfl
      | exact absurd (by simp [vpcGuaranteed]) h

/-- The classic list function panics as soon as one of two records does. -/
theorem getClassicPublicIpList_pair_panic (r1 r2 : ClassicPublicIpInstance)
    (h : classicInstance r1 = Outcome.panic ∨ classicInstance r2 = Outcome.panic) :
    getClassicPublicIpList (Except.ok [some r1, some r2]) = Outcome.panic := by
  rcases h with h | h
  · simp [getClassicPublicIpList, normalizeAll, h]
  · rcases h1 : classicInstance r1 with inst | _ <;>
      simp [getClassicPublicIpList, normalizeAll, h, h1]

/-- The VPC list function panics as soon as one of two records does. -/
theorem getVpcPublicIpList_pair_panic (r1 r2 : VpcPublicIpInstance)
    (h : vpcInstance r1 = Outcome.panic ∨ vpcInstance r2 = Outcome.panic) :
    getVpcPublicIpList (Except.ok [some r1, some r2]) = Outcome.panic := by
  rcases h with h | h
  · simp [getVpcPublicIpList, normalizeAll, h]
  · rcases h1 : vpcInstance r1 with inst | _ <;>
      simp [getVpcPublicIpList, normalizeAll, h, h1]

/-- The list function on a two-element response: the two loop bodies in order. -/
theorem getClassicPublicIpList_pair (r1 r2 : ClassicPublicIpInstance) (inst1 inst2 : Record)
    (h1 : classicInstance r1 = Outcome.done inst1)
    (h2 : classicInstance r2 = Outcome.done inst2) :
    getClassicPublicIpList (Except.ok [some r1, some r2]) =
      Outcome.done (Except.ok [inst1, inst2]) := by
  simp [getClassicPublicIpList, normalizeAll, h1, h2]

/-- The list function on a two-element response: the two loop bodies in order. -/
theorem getVpcPublicIpList_pair (r1 r2 : VpcPublicIpInstance) (inst1 inst2 : Record)
    (h1 : vpcInstance r1 = Outcome.done inst1) (h2 : vpcInstance r2 = Outcome.done inst2) :
    getVpcPublicIpList (Except.ok [some r1, some r2]) =
      Outcome.done (Except.ok [inst1, inst2]) := by
  simp [getVpcPublicIpList, normalizeAll, h1, h2]

/-- The list function on a one-element response. -/
theorem getClassicPublicIpList_single (r : ClassicPublicIpInstance) (inst : Record)
    (h : classicInstance r = Outcome.done inst) :
    getClassicPublicIpList (Except.ok [some r]) = Outcome.done (Except.ok [inst]) := by
  simp [getClassicPublicIpList, normalizeAll, h]

/-- The list function on a one-element response. -/
theorem getVpcPublicIpList_single (r : VpcPublicIpInstance) (inst : Record)
    (h : vpcInstance r = Outcome.done inst) :
    getVpcPublicIpList (Except.ok [some r]) = Outcome.done (Except.ok [inst]) := by
  simp [getVpcPublicIpList, normalizeAll, h]

/-- C8 as stated fails, in both flavors: of two raw records that differ only in the status
sub-object (present with code "CREAT" in the first, absent in the second), the first
canonical record has the field `status` and the second has not. -/
theorem same_flavor_field_names_differ :
    (getClassicPublicIpList
          (Except.ok [some (sampleClassic (some createdStatus) none),
            some (sampleClassic none none)]) =
        Outcome.done
          (Except.ok
            [[("id", Value.str "101"), ("instance_no", Value.str "101"),
               ("public_ip_no", Value.str "101"), ("public_ip", Value.str "10.0.0.1"),
               ("description", Value.str "edge"), ("server_instance_no", Value.null),
               ("server_name", Value.null), ("status", Value.str "CREAT")],
             [("id", Value.str "101"), ("instance_no", Value.str "101"),
               ("public_ip_no", Value.str "101"), ("public_ip", Value.str "10.0.0.1"),
               ("description", Value.str "edge"), ("server_instance_no", Value.null),
               ("server_name", Value.null)]]) ∧
      ¬ sameFieldNames
          [("id", Value.str "101"), ("instance_no", Value.str "101"),
            ("public_ip_no", Value.str "101"), ("public_ip", Value.str "10.0.0.1"),
            ("description", Value.str "edge"), ("server_instance_no", Value.null),
            ("server_name", Value.null), ("status", Value.str "CREAT")]
          [("id", Value.str "101"), ("instance_no", Value.str "101"),
            ("public_ip_no", Value.str "101"), ("public_ip", Value.str "10.0.0.1"),
            ("description", Value.str "edge"), ("server_instance_no", Value.null),
            ("server_name", Value.null)]) ∧
    (getVpcPublicIpList
          (Except.ok [some (sampleVpc (some createdStatus) none none),
            some (sampleVpc none none none)]) =
        Outcome.done
          (Except.ok
            [[("id", Value.str "101"), ("public_ip_no", Value.str "101"),
               ("public_ip", Value.str "10.0.0.1"), ("description", Value.str "edge"),
               ("server_instance_no", Value.null), ("server_name", Value.null),
               ("status", Value.str "CREAT")],
             [("id", Value.str "101"), ("public_ip_no", Value.str "101"),
               ("public_ip", Value.str "10.0.0.1"), ("description", Value.str "edge"),
               ("server_instance_no", Value.null), ("server_name", Value.null)]]) ∧
      ¬ sameFieldNames
          [("id", Value.str "101"), ("public_ip_no", Value.str "101"),
            ("public_ip", Value.str "10.0.0.1"), ("description", Value.str "edge"),
            ("server_instance_no", Value.null), ("server_name", Value.null),
            ("status", Value.str "CREAT")]
          [("id", Value.str "101"), ("public_ip_no", Value.str "101"),
            ("public_ip", Value.str "10.0.0.1"), ("description", Value.str "edge"),
            ("server_instance_no", Value.null), ("server_name", Value.null)]) := by
  refine ⟨⟨rfl, ?_⟩, rfl, ?_⟩
  · intro h
    have h1 := (h "status").mp (by simp [mapKeys])
    simp [mapKeys] at h1
  · intro h
    have h1 := (h "status").mp (by simp [mapKeys])
    simp [mapKeys] at h1

/-- C8, amended: in each flavor, for any two raw records, either one of them lacks a
guaranteed field (instance number, address, description) and the list function panics, or
both are normalised, both canonical records contain the base fields of the flavor, and the
two have the same set of field names exactly when the records agree on which coded
sub-objects yield a code (status, kind and zone in the classic flavor; status in the VPC
flavor). -/
theorem same_flavor_field_names_iff_same_codes :
    (∀ r1 r2 : ClassicPublicIpInstance,
      ((¬ classicGuaranteed r1 ∨ ¬ classicGuaranteed r2) ∧
          getClassicPublicIpList (Except.ok [some r1, some r2]) = Outcome.panic) ∨
        (classicGuaranteed r1 ∧ classicGuaranteed r2 ∧
          ∃ inst1 inst2,
            getClassicPublicIpList (Except.ok [some r1, some r2]) =
                Outcome.done (Except.ok [inst1, inst2]) ∧
              classicInstance r1 = Outcome.done inst1 ∧
              classicInstance r2 = Outcome.done inst2 ∧
              (∀ k ∈ classicBaseKeys, k ∈ mapKeys inst1 ∧ k ∈ mapKeys inst2) ∧
              (sameFieldNames inst1 inst2 ↔
                ((classicStatusPresent r1 ↔ classicStatusPresent r2) ∧
                  (classicKindPresent r1 ↔ classicKindPresent r2) ∧
                  (classicZonePresent r1 ↔ classicZonePresent r2))))) ∧
    (∀ r1 r2 : VpcPublicIpInstance,
      ((¬ vpcGuaranteed r1 ∨ ¬ vpcGuaranteed r2) ∧
          getVpcPublicIpList (Except.ok [some r1, some r2]) = Outcome.panic) ∨
        (vpcGuaranteed r1 ∧ vpcGuaranteed r2 ∧
          ∃ inst1 inst2,
            getVpcPublicIpList (Except.ok [some r1, some r2]) =
                Outcome.done (Except.ok [inst1, inst2]) ∧
              vpcInstance r1 = Outcome.done inst1 ∧ vpcInstance r2 = Outcome.done inst2 ∧
              (∀ k ∈ vpcBaseKeys, k ∈ mapKeys inst1 ∧ k ∈ mapKeys inst2) ∧
              (sameFieldNames inst1 inst2 ↔ (vpcStatusPresent r1 ↔ vpcStatusPresent r2)))) := by
  constructor
  · intro r1 r2
    by_cases hg1 : classicGuaranteed r1
    swap
    · exact Or.inl ⟨Or.inl hg1,
        getClassicPublicIpList_pair_panic r1 r2 (Or.inl (classicInstance_panic r1 hg1))⟩
    by_cases hg2 : classicGuaranteed r2
    swap
    · exact Or.inl ⟨Or.inr hg2,
        getClassicPublicIpList_pair_panic r1 r2 (Or.inr (classicInstance_panic r2 hg2))⟩
    right
    obtain ⟨inst1, hi1, hk1⟩ := classicInstance_keys r1 hg1
    obtain ⟨inst2, hi2, hk2⟩ := classicInstance_keys r2 hg2
    refine ⟨hg1, hg2, inst1, inst2, getClassicPublicIpList_pair r1 r2 inst1 inst2 hi1 hi2,
      hi1, hi2, ?_, ?_⟩
    · intro k hk
      exact ⟨(hk1 k).mpr (Or.inl hk), (hk2 k).mpr (Or.inl hk)⟩
    · constructor
      · intro h
        refine ⟨?_, ?_, ?_⟩
        · have h1 := h "status"
          rw [hk1, hk2] at h1
          simpa [classicBaseKeys] using h1
        · have h1 := h "kind_type"
          rw [hk1, hk2] at h1
          simpa [classicBaseKeys] using h1
        · have h1 := h "zone"
          rw [hk1, hk2] at h1
          simpa [classicBaseKeys] using h1
      · rintro ⟨hs, hkind, hz⟩ k
        rw [hk1, hk2, hs, hkind, hz]
  · intro r1 r2
    by_cases hg1 : vpcGuaranteed r1
    swap
    · exact Or.inl ⟨Or.inl hg1,
        getVpcPublicIpList_pair_panic r1 r2 (Or.inl (vpcInstance_panic r1 hg1))⟩
    by_cases hg2 : vpcGuaranteed r2
    swap
    · exact Or.inl ⟨Or.inr hg2,
        getVpcPublicIpList_pair_panic r1 r2 (Or.inr (vpcInstance_panic r2 hg2))⟩
    right
    obtain ⟨inst1, hi1, hk1⟩ := vpcInstance_keys r1 hg1
    obtain ⟨inst2, hi2, hk2⟩ := vpcInstance_keys r2 hg2
    refine ⟨hg1, hg2, inst1, inst2, getVpcPublicIpList_pair r1 r2 inst1 inst2 hi1 hi2, hi1,
      hi2, ?_, ?_⟩
    · intro k hk
      exact ⟨(hk1 k).mpr (Or.inl hk), (hk2 k).mpr (Or.inl hk)⟩
    · constructor
      · intro h
        have h1 := h "status"
        rw [hk1, hk2] at h1
        simpa [vpcBaseKeys] using h1
      · intro hs k
        rw [hk1, hk2, hs]

/-- Witness for the amended C8: two classic records that both carry a status code (and no
kind or zone) are normalised to records with the same field names. -/
theorem same_flavor_field_names_iff_same_codes_witness :
    ∃ inst1 inst2,
      classicInstance (sampleClassic (some createdStatus) none) = Outcome.done inst1 ∧
        classicInstance
            (sampleClassic (some createdStatus)
              (some { ServerInstanceNo := some "9", ServerName := some "web" })) =
          Outcome.done inst2 ∧
        sameFieldNames inst1 inst2 := by
  rcases same_flavor_field_names_iff_same_codes.1 (sampleClassic (some createdStatus) none)
      (sampleClassic (some createdStatus)
        (some { ServerInstanceNo := some "9", ServerName := some "web" })) with
    ⟨hbad, _⟩ | ⟨_, _, inst1, inst2, _, h1, h2, _, h3⟩
  · simp [classicGuaranteed, sampleClassic] at hbad
  · exact ⟨inst1, inst2, h1, h2, h3.mpr ⟨Iff.rfl, Iff.rfl, Iff.rfl⟩⟩

/-- C9 as stated fails: a classic and a VPC raw record with the same instance number,
address, description, (absent) status and (absent) server are normalised to records with
different field names; the classic record has `instance_no`, the VPC record has not. -/
theorem cross_backend_field_names_differ :
    equivalentRecords (sampleClassic none none) (sampleVpc none none none) ∧
      getClassicPublicIpList (Except.ok [some (sampleClassic none none)]) =
        Outcome.done
          (Except.ok
            [[("id", Value.str "101"), ("instance_no", Value.str "101"),
               ("public_ip_no", Value.str "101"), ("public_ip", Value.str "10.0.0.1"),
               ("description", Value.str "edge"), ("server_instance_no", Value.null),
               ("server_name", Value.null)]]) ∧
      getVpcPublicIpList (Except.ok [some (sampleVpc none none none)]) =
        Outcome.done
          (Except.ok
            [[("id", Value.str "101"), ("public_ip_no", Value.str "101"),
               ("public_ip", Value.str "10.0.0.1"), ("description", Value.str "edge"),
               ("server_instance_no", Value.null), ("server_name", Value.null)]]) ∧
      ¬ sameFieldNames
          [("id", Value.str "101"), ("instance_no", Value.str "101"),
            ("public_ip_no", Value.str "101"), ("public_ip", Value.str "10.0.0.1"),
            ("description", Value.str "edge"), ("server_instance_no", Value.null),
            ("server_name", Value.null)]
          [("id", Value.str "101"), ("public_ip_no", Value.str "101"),
            ("public_ip", Value.str "10.0.0.1"), ("description", Value.str "edge"),
            ("server_instance_no", Value.null), ("server_name", Value.null)] := by
  refine ⟨⟨rfl, rfl, rfl, rfl, rfl, rfl⟩, rfl, rfl, ?_⟩
  intro h
  have h1 := (h "instance_no").mp (by simp [mapKeys])
  simp [mapKeys] at h1

/-- C9, amended: for a classic and a VPC raw record that represent equivalent data, either
both lack a guaranteed field and both loop bodies panic, or both are normalised, every field
name of the VPC record is a field name of the classic record, and the classic record has no
other field names than those and `instance_no` (always present), `kind_type` and `zone`,
none of which the VPC record ever has. -/
theorem cross_backend_field_names_up_to_legacy (c : ClassicPublicIpInstance)
    (v : VpcPublicIpInstance) (heq : equivalentRecords c v) :
    (¬ classicGuaranteed c ∧ ¬ vpcGuaranteed v ∧ classicInstance c = Outcome.panic ∧
        vpcInstance v = Outcome.panic) ∨
      (classicGuaranteed c ∧ vpcGuaranteed v ∧
        ∃ instC instV,
          getClassicPublicIpList (Except.ok [some c]) = Outcome.done (Except.ok [instC]) ∧
            getVpcPublicIpList (Except.ok [some v]) = Outcome.done (Except.ok [instV]) ∧
            (∀ k, k ∈ mapKeys instV → k ∈ mapKeys instC) ∧
            (∀ k, k ∈ mapKeys instC →
              k ∈ mapKeys instV ∨ k = "instance_no" ∨ k = "kind_type" ∨ k = "zone") ∧
            "instance_no" ∈ mapKeys instC ∧ "instance_no" ∉ mapKeys instV ∧
            "kind_type" ∉ mapKeys instV ∧ "zone" ∉ mapKeys instV) := by
  obtain ⟨e1, e2, e3, e4, _, _⟩ := heq
  have hiff : classicGuaranteed c ↔ vpcGuaranteed v := by
    unfold classicGuaranteed vpcGuaranteed
    rw [e1, e2, e3]
  by_cases hc : classicGuaranteed c
  swap
  · exact Or.inl ⟨hc, fun hv => hc (hiff.mpr hv), classicInstance_panic c hc,
      vpcInstance_panic v (fun hv => hc (hiff.mpr hv))⟩
  right
  have hv : vpcGuaranteed v := hiff.mp hc
  obtain ⟨instC, hiC, hkC⟩ := classicInstance_keys c hc
  obtain ⟨instV, hiV, hkV⟩ := vpcInstance_keys v hv
  have hstatus : vpcStatusPresent v ↔ classicStatusPresent c := by
    unfold vpcStatusPresent classicStatusPresent
    rw [e4]
  refine ⟨hc, hv, instC, instV, getClassicPublicIpList_single c instC hiC,
    getVpcPublicIpList_single v instV hiV, ?_, ?_, ?_, ?_, ?_, ?_⟩
  · intro k hk
    rw [hkV] at hk
    rw [hkC]
    rcases hk with hk | ⟨hk, hs⟩
    · left
      simp only [vpcBaseKeys, List.mem_cons, List.mem_singleton, List.mem_nil_iff] at hk
      simp only [classicBaseKeys, List.mem_cons, List.mem_singleton, List.mem_nil_iff]
      tauto
    · exact Or.inr (Or.inl ⟨hk, hstatus.mp hs⟩)
  · intro k hk
    rw [hkC] at hk
    rw [hkV]
    rcases hk with hk | ⟨hk, hs⟩ | ⟨hk, _⟩ | ⟨hk, _⟩
    · simp only [classicBaseKeys, List.mem_cons, List.mem_singleton, List.mem_nil_iff] at hk
      simp only [vpcBaseKeys, List.mem_cons, List.mem_singleton, List.mem_nil_iff]
      tauto
    · exact Or.inl (Or.inr ⟨hk, hstatus.mpr hs⟩)
    · exact Or.inr (Or.inr (Or.inl hk))
    · exact Or.inr (Or.inr (Or.inr hk))
  · rw [hkC]; simp [classicBaseKeys]
  · rw [hkV]; simp [vpcBaseKeys]
  · rw [hkV]; simp [vpcBaseKeys]
  · rw [hkV]; simp [vpcBaseKeys]

/-- Witness for the amended C9 on a pair of equivalent records with status "CREAT" and an
associated server. -/
theorem cross_backend_field_names_up_to_legacy_witness :
    ∃ instC instV,
      getClassicPublicIpList
            (Except.ok
              [some (sampleClassic (some createdStatus)
                (some { ServerInstanceNo := some "9", ServerName := some "web" }))]) =
          Outcome.done (Except.ok [instC]) ∧
        getVpcPublicIpList
            (Except.ok [some (sampleVpc (some createdStatus) (some "9") (some "web"))]) =
          Outcome.done (Except.ok [instV]) ∧
        (∀ k, k ∈ mapKeys instV → k ∈ mapKeys instC) ∧
        "instance_no" ∈ mapKeys instC ∧ "instance_no" ∉ mapKeys instV := by
  rcases cross_backend_field_names_up_to_legacy
      (sampleClassic (some createdStatus)
        (some { ServerInstanceNo := some "9", ServerName := some "web" }))
      (sampleVpc (some createdStatus) (some "9") (some "web"))
      ⟨rfl, rfl, rfl, rfl, rfl, rfl⟩ with
    ⟨hbad, _⟩ | ⟨_, _, instC, instV, h1, h2, h3, _, h5, h6, _, _⟩
  · simp [classicGuaranteed, sampleClassic] at hbad
  · exact ⟨instC, instV, h1, h2, h3, h5, h6⟩

/-! ## Theorems: relational fields -/

/-- A key holding the prescribed relational value satisfies the relational-field rule. -/
theorem holdsSourceOrNull_of_lookup (inst : Record) (k : String) (src : Option String)
    (h : mapLookup inst k = some (relationalValue src)) : holdsSourceOrNull inst k src := by
  refine ⟨?_, ?_, ?_, ?_⟩
  · intro s hs hne
    rw [h, hs]
    simp [relationalValue, hne]
  · rintro (hs | hs)
    · rw [h, hs]; rfl
    · rw [h, hs]; rfl
  · rw [h]; simp
  · rw [h]
    cases src with
    | none => simp [relationalValue]
    | some s =>
      by_cases hs : s = ""
      · simp [relationalValue, hs]
      · simp [relationalValue, hs]

/-- The two relational keys of a classic canonical record. -/
theorem classicInstance_server_lookup (r : ClassicPublicIpInstance)
    (h : classicGuaranteed r) :
    ∃ inst, classicInstance r = Outcome.done inst ∧
      mapLookup inst "server_instance_no" =
        some (relationalValue
          (r.ServerInstanceAssociatedWithPublicIp.bind fun srv => srv.ServerInstanceNo)) ∧
      mapLookup inst "server_name" =
        some (relationalValue
          (r.ServerInstanceAssociatedWithPublicIp.bind fun srv => srv.ServerName)) := by
  obtain ⟨h1, h2, h3⟩ := h
  obtain ⟨no, hno⟩ := Option.ne_none_iff_exists'.mp h1
  obtain ⟨ip, hip⟩ := Option.ne_none_iff_exists'.mp h2
  obtain ⟨desc, hdesc⟩ := Option.ne_none_iff_exists'.mp h3
  unfold classicInstance
  rw [hno, hip, hdesc]
  simp only
  cases r.ServerInstanceAssociatedWithPublicIp with
  | none =>
    refine ⟨_, rfl, ?_, ?_⟩
    · rw [mapLookup_ite _ _ _ _ _ (by decide), mapLookup_ite _ _ _ _ _ (by decide),
        mapLookup_ite _ _ _ _ _ (by decide)]
      simp [mapLookup, relationalValue]
    · rw [mapLookup_ite _ _ _ _ _ (by decide), mapLookup_ite _ _ _ _ _ (by decide),
        mapLookup_ite _ _ _ _ _ (by decide)]
      simp [mapLookup, relationalValue]
  | some srv =>
    refine ⟨_, rfl, ?_, ?_⟩
    · rw [mapLookup_SetString, mapLookup_SetString, mapLookup_ite _ _ _ _ _ (by decide),
        mapLookup_ite _ _ _ _ _ (by decide), mapLookup_ite _ _ _ _ _ (by decide)]
      rcases srv with ⟨_ | a, _ | b⟩ <;>
        simp [mapLookup, relationalValue] <;> split_ifs <;> simp
    · rw [mapLookup_SetString, mapLookup_SetString, mapLookup_ite _ _ _ _ _ (by decide),
        mapLookup_ite _ _ _ _ _ (by decide), mapLookup_ite _ _ _ _ _ (by decide)]
      rcases srv with ⟨_ | a, _ | b⟩ <;>
        simp [mapLookup, relationalValue] <;> split_ifs <;> simp

/-- The two relational keys of a VPC canonical record. -/
theorem vpcInstance_server_lookup (r : VpcPublicIpInstance) (h : vpcGuaranteed r) :
    ∃ inst, vpcInstance r = Outcome.done inst ∧
      mapLookup inst "server_instance_no" = some (relationalValue r.ServerInstanceNo) ∧
      mapLookup inst "server_name" = some (relationalValue r.ServerName) := by
  obtain ⟨h1, h2, h3⟩ := h
  obtain ⟨no, hno⟩ := Option.ne_none_iff_exists'.mp h1
  obtain ⟨ip, hip⟩ := Option.ne_none_iff_exists'.mp h2
  obtain ⟨desc, hdesc⟩ := Option.ne_none_iff_exists'.mp h3
  unfold vpcInstance
  rw [hno, hip, hdesc]
  simp only
  rcases r with ⟨_, _, _, status, a, b⟩
  simp only
  by_cases hs : mapIndex (flattenCommonCode status) "code" ≠ Value.null
  · rw [if_pos hs]
    refine ⟨_, rfl, ?_, ?_⟩
    · rw [mapLookup_mapSet, mapLookup_SetString, mapLookup_SetString]
      rcases a with _ | a <;> rcases b with _ | b <;>
        simp [mapLookup, relationalValue] <;> split_ifs <;> simp
    · rw [mapLookup_mapSet, mapLookup_SetString, mapLookup_SetString]
      rcases a with _ | a <;> rcases b with _ | b <;>
        simp [mapLookup, relationalValue] <;> split_ifs <;> simp
  · rw [if_neg hs]
    refine ⟨_, rfl, ?_, ?_⟩
    · rw [mapLookup_SetString, mapLookup_SetString]
      rcases a with _ | a <;> rcases b with _ | b <;>
        simp [mapLookup, relationalValue] <;> split_ifs <;> simp
    · rw [mapLookup_SetString, mapLookup_SetString]
      rcases a with _ | a <;> rcases b with _ | b <;>
        simp [mapLookup, relationalValue] <;> split_ifs <;> simp

/-- C10: in both flavors, for every raw record, either the record lacks a guaranteed field
and the loop body panics, or the record is normalised and the canonical record holds the
keys `server_instance_no` and `server_name`; each holds the source string when the
associated-server field is present and non-empty and holds null otherwise, is never missing
and never the empty string.  In the classic flavor the source fields are those of the
associated server sub-object, and both keys hold null when that sub-object is absent. -/
theorem relational_fields_source_or_null :
    (∀ r : ClassicPublicIpInstance,
      (¬ classicGuaranteed r ∧ classicInstance r = Outcome.panic) ∨
        (classicGuaranteed r ∧
          ∃ inst,
            getClassicPublicIpList (Except.ok [some r]) = Outcome.done (Except.ok [inst]) ∧
              classicInstance r = Outcome.done inst ∧
              holdsSourceOrNull inst "server_instance_no"
                (r.ServerInstanceAssociatedWithPublicIp.bind fun srv => srv.ServerInstanceNo) ∧
              holdsSourceOrNull inst "server_name"
                (r.ServerInstanceAssociatedWithPublicIp.bind fun srv => srv.ServerName) ∧
              (r.ServerInstanceAssociatedWithPublicIp = none →
                mapLookup inst "server_instance_no" = some Value.null ∧
                  mapLookup inst "server_name" = some Value.null))) ∧
    (∀ r : VpcPublicIpInstance,
      (¬ vpcGuaranteed r ∧ vpcInstance r = Outcome.panic) ∨
        (vpcGuaranteed r ∧
          ∃ inst,
            getVpcPublicIpList (Except.ok [some r]) = Outcome.done (Except.ok [inst]) ∧
              vpcInstance r = Outcome.done inst ∧
              holdsSourceOrNull inst "server_instance_no" r.ServerInstanceNo ∧
              holdsSourceOrNull inst "server_name" r.ServerName)) := by
  constructor
  · intro r
    by_cases hg : classicGuaranteed r
    swap
    · exact Or.inl ⟨hg, classicInstance_panic r hg⟩
    right
    obtain ⟨inst, hi, hno, hname⟩ := classicInstance_server_lookup r hg
    refine ⟨hg, inst, getClassicPublicIpList_single r inst hi, hi,
      holdsSourceOrNull_of_lookup inst _ _ hno, holdsSourceOrNull_of_lookup inst _ _ hname, ?_⟩
    intro hnone
    rw [hnone] at hno hname
    exact ⟨hno, hname⟩
  · intro r
    by_cases hg : vpcGuaranteed r
    swap
    · exact Or.inl ⟨hg, vpcInstance_panic r hg⟩
    right
    obtain ⟨inst, hi, hno, hname⟩ := vpcInstance_server_lookup r hg
    exact ⟨hg, inst, getVpcPublicIpList_single r inst hi, hi,
      holdsSourceOrNull_of_lookup inst _ _ hno, holdsSourceOrNull_of_lookup inst _ _ hname⟩

/-- Witness for C10: a classic record whose associated server has the number "9" and an
empty name yields `server_instance_no` "9" and `server_name` null. -/
theorem relational_fields_source_or_null_witness :
    ∃ inst,
      classicInstance
          (sampleClassic none (some { ServerInstanceNo := some "9", ServerName := some "" })) =
        Outcome.done inst ∧
      mapLookup inst "server_instance_no" = some (Value.str "9") ∧
      mapLookup inst "server_name" = some Value.null := by
  rcases relational_fields_source_or_null.1
      (sampleClassic none (some { ServerInstanceNo := some "9", ServerName := some "" })) with
    ⟨hbad, _⟩ | ⟨_, inst, _, h1, h2, h3, _⟩
  · simp [classicGuaranteed, sampleClassic] at hbad
  · exact ⟨inst, h1, h2.1 "9" rfl (by decide), h3.2.1 (Or.inr rfl)⟩

/-! ## Theorems: the singular read of the public-IP data source -/

/-- C11 as stated fails on its witness: the selected backend lists three records of which
exactly one, number 102, has an associated server; with the filter `is_associated = "true"`
the read does not return that record but fails with NotFound, because no canonical record
carries a field `is_associated`. -/
theorem is_associated_filter_finds_nothing :
    listPublicIps threeRecordConfig (filterOnly [isAssociatedFilter]) =
        Outcome.done
          (Except.ok [unassociatedRecord "101", associatedRecord, unassociatedRecord "103"]) ∧
      mapLookup (unassociatedRecord "101") "server_instance_no" = some Value.null ∧
      mapLookup associatedRecord "server_instance_no" = some (Value.str "9") ∧
      mapLookup (unassociatedRecord "103") "server_instance_no" = some Value.null ∧
      mapLookup associatedRecord "is_associated" = none ∧
      dataSourceNcloudPublicIpRead noPattern threeRecordConfig
          (filterOnly [isAssociatedFilter]) =
        Outcome.done (some notFoundResult, filterOnly [isAssociatedFilter]) := by
  refine ⟨rfl, rfl, rfl, rfl, rfl, rfl⟩

/-- A list filters down to exactly `[r]` if and only if `r` is its one and only entry for
which the test holds. -/
theorem filter_eq_singleton_iff (q : Record → Bool) (l : List Record) (r : Record) :
    l.filter q = [r] ↔ isOnlyMatch q l r := by
  constructor
  · intro h
    induction l with
    | nil => simp at h
    | cons x xs ih =>
      by_cases hx : q x = true
      · rw [List.filter_cons_of_pos hx] at h
        simp only [List.cons.injEq] at h
        obtain ⟨rfl, hnil⟩ := h
        refine ⟨[], xs, rfl, hx, ?_⟩
        intro y hy
        simp only [List.nil_append] at hy
        have := List.filter_eq_nil_iff.mp hnil y hy
        simpa using this
      · rw [List.filter_cons_of_neg hx] at h
        obtain ⟨pre, post, hl, hr, hrest⟩ := ih h
        refine ⟨x :: pre, post, by simp [hl], hr, ?_⟩
        intro y hy
        simp only [List.cons_append, List.mem_cons] at hy
        rcases hy with rfl | hy
        · simpa using hx
        · exact hrest y hy
  · rintro ⟨pre, post, rfl, hr, hrest⟩
    have hpre : pre.filter q = [] := by
      apply List.filter_eq_nil_iff.mpr
      intro y hy
      simp [hrest y (List.mem_append_left _ hy)]
    have hpost : post.filter q = [] := by
      apply List.filter_eq_nil_iff.mpr
      intro y hy
      simp [hrest y (List.mem_append_right _ hy)]
    rw [List.filter_append, hpre, List.filter_cons_of_pos hr, hpost]
    rfl

/-- A filter set naming a field outside the schema is satisfied by no record. -/
theorem satisfiesAll_unknown (reMatch : String → Bool → String → Bool)
    (schemaKeys : List String) (filters : List FilterPredicate) (r : Record)
    (h : filters.any (fun p => decide (p.name ∉ schemaKeys)) = true) :
    satisfiesAll reMatch schemaKeys filters r = false := by
  simp only [List.any_eq_true, decide_eq_true_eq] at h
  obtain ⟨p, hp, hname⟩ := h
  have hne : ¬ satisfiesAll reMatch schemaKeys filters r = true := by
    intro hall
    simp only [satisfiesAll, List.all_eq_true, Bool.and_eq_true, decide_eq_true_eq] at hall
    exact hname (hall p hp).1
  simpa using hne

/-- For a filter set naming schema fields only, satisfying it is matching every
predicate. -/
theorem satisfiesAll_known (reMatch : String → Bool → String → Bool)
    (schemaKeys : List String) (filters : List FilterPredicate) (r : Record)
    (h : ¬ filters.any (fun p => decide (p.name ∉ schemaKeys)) = true) :
    satisfiesAll reMatch schemaKeys filters r =
      filters.all fun p => predicateMatches reMatch p r := by
  simp only [List.any_eq_true, decide_eq_true_eq, not_exists, not_and, not_not] at h
  rw [Bool.eq_iff_iff]
  simp only [satisfiesAll, List.all_eq_true, Bool.and_eq_true, decide_eq_true_eq]
  constructor
  · intro hall p hp
    exact (hall p hp).2
  · intro hall p hp
    exact ⟨h p hp, hall p hp⟩

/-- The records the read resolves (source lines 130-132) are the listed records that satisfy
every predicate of the filter block; without a filter block this is the whole list. -/
theorem filtered_resources_eq (reMatch : String → Bool → String → Bool)
    (schemaKeys : List String) (filters : List FilterPredicate) (items : List Record) :
    (if filters ≠ [] then ApplyFilters reMatch filters items schemaKeys else items) =
      items.filter (satisfiesAll reMatch schemaKeys filters) := by
  by_cases hf : filters = []
  · subst hf
    rw [if_neg (by simp)]
    exact (List.filter_eq_self.mpr (fun x _ => rfl)).symm
  · rw [if_pos hf]
    unfold ApplyFilters
    rw [if_neg hf]
    by_cases hu : filters.any (fun p => decide (p.name ∉ schemaKeys)) = true
    · rw [if_pos hu]
      symm
      apply List.filter_eq_nil_iff.mpr
      intro x _
      simp [satisfiesAll_unknown reMatch schemaKeys filters x hu]
    · rw [if_neg hu]
      apply List.filter_congr
      intro x _
      exact (satisfiesAll_known reMatch schemaKeys filters x hu).symm

/-- A key that is no field name of a record is missing from it. -/
theorem mapLookup_eq_none (m : Record) (k : String) (h : k ∉ mapKeys m) :
    mapLookup m k = none := by
  induction m with
  | nil => rfl
  | cons p rest ih =>
    obtain ⟨k1, v1⟩ := p
    simp only [mapKeys, List.map_cons, List.mem_cons, not_or] at h
    have hne : ¬ k1 = k := fun e => h.1 e.symm
    simp only [mapLookup, hne, if_false]
    exact ih h.2

/-- Every record of a normalised list is the canonical record of some raw record. -/
theorem normalizeAll_mem {α : Type} (f : α → Outcome Record) (l : List (Option α)) :
    ∀ recs, normalizeAll f l = Outcome.done recs → ∀ r ∈ recs, ∃ raw, f raw = Outcome.done r := by
  induction l with
  | nil =>
    intro recs h r hr
    simp only [normalizeAll, Outcome.done.injEq] at h
    subst h
    cases hr
  | cons x xs ih =>
    intro recs h r hr
    cases x with
    | none => simp [normalizeAll] at h
    | some raw =>
      rcases hf : f raw with inst | _
      · rcases hrest : normalizeAll f xs with rest | _
        · simp only [normalizeAll, hf, hrest, Outcome.done.injEq] at h
          subst h
          rcases List.mem_cons.mp hr with rfl | hr1
          · exact ⟨raw, hf⟩
          · exact ih rest hrest r hr1
        · simp [normalizeAll, hf, hrest] at h
      · simp [normalizeAll, hf] at h

/-- No canonical record of the classic flavor carries a field `is_associated`. -/
theorem classicInstance_no_is_associated (raw : ClassicPublicIpInstance) (inst : Record)
    (h : classicInstance raw = Outcome.done inst) : mapIndex inst "is_associated" = Value.null := by
  have hg : classicGuaranteed raw := by
    by_contra hn
    rw [classicInstance_panic raw hn] at h
    cases h
  obtain ⟨inst1, hi, hk⟩ := classicInstance_keys raw hg
  rw [hi] at h
  simp only [Outcome.done.injEq] at h
  subst h
  have hnot : "is_associated" ∉ mapKeys inst1 := by
    rw [hk]
    simp [classicBaseKeys]
  simp [mapIndex, mapLookup_eq_none inst1 _ hnot]

/-- No canonical record of the VPC flavor carries a field `is_associated`. -/
theorem vpcInstance_no_is_associated (raw : VpcPublicIpInstance) (inst : Record)
    (h : vpcInstance raw = Outcome.done inst) : mapIndex inst "is_associated" = Value.null := by
  have hg : vpcGuaranteed raw := by
    by_contra hn
    rw [vpcInstance_panic raw hn] at h
    cases h
  obtain ⟨inst1, hi, hk⟩ := vpcInstance_keys raw hg
  rw [hi] at h
  simp only [Outcome.done.injEq] at h
  subst h
  have hnot : "is_associated" ∉ mapKeys inst1 := by
    rw [hk]
    simp [vpcBaseKeys]
  simp [mapIndex, mapLookup_eq_none inst1 _ hnot]

/-- No record listed by the selected backend carries a field `is_associated`. -/
theorem listPublicIps_no_is_associated (config : ProviderConfig) (d : PublicIpData)
    (resources : List Record)
    (hlist : listPublicIps config d = Outcome.done (Except.ok resources)) :
    ∀ r ∈ resources, mapIndex r "is_associated" = Value.null := by
  intro r hr
  unfold listPublicIps at hlist
  by_cases hv : config.SupportVPC = true
  · rw [if_pos hv] at hlist
    unfold getVpcPublicIpList at hlist
    rcases hresp : config.vpcGetPublicIpInstanceList (vpcListRequest d config) with e | l
    · simp [hresp] at hlist
    · rcases hn : normalizeAll vpcInstance l with recs | _
      · simp only [hresp, hn, Outcome.done.injEq, Except.ok.injEq] at hlist
        subst hlist
        obtain ⟨raw, hraw⟩ := normalizeAll_mem vpcInstance l recs hn r hr
        exact vpcInstance_no_is_associated raw r hraw
      · simp [hresp, hn] at hlist
  · rw [if_neg hv] at hlist
    unfold getClassicPublicIpList at hlist
    rcases hresp : config.classicGetPublicIpInstanceList (classicListRequest d config) with e | l
    · simp [hresp] at hlist
    · rcases hn : normalizeAll classicInstance l with recs | _
      · simp only [hresp, hn, Outcome.done.injEq, Except.ok.injEq] at hlist
        subst hlist
        obtain ⟨raw, hraw⟩ := normalizeAll_mem classicInstance l recs hn r hr
        exact classicInstance_no_is_associated raw r hraw
      · simp [hresp, hn] at hlist

/-- The read after a successful list call, by the number of listed records that satisfy the
filter block. -/
theorem dataSourceNcloudPublicIpRead_cases (reMatch : String → Bool → String → Bool)
    (config : ProviderConfig) (d : PublicIpData) (resources : List Record)
    (hlist : listPublicIps config d = Outcome.done (Except.ok resources)) :
    dataSourceNcloudPublicIpRead reMatch config d =
      match resources.filter (satisfiesAll reMatch publicIpSchemaKeys d.filter) with
      | [] => Outcome.done (some notFoundResult, d)
      | [r] => Outcome.done (none, SetSingularResourceDataFromMapSchema d r)
      | _ :: _ :: rest => Outcome.done (some (ambiguousResult (rest.length + 2)), d) := by
  unfold dataSourceNcloudPublicIpRead
  rw [hlist]
  simp only
  rw [filtered_resources_eq]
  rcases resources.filter (satisfiesAll reMatch publicIpSchemaKeys d.filter) with
    _ | ⟨a, _ | ⟨b, rest⟩⟩
  · simp [validateOneResult]
  · simp [validateOneResult]
  · simp [validateOneResult]

/-- A record without a field `is_associated` does not satisfy a filter block that holds the
literal filter `is_associated = "true"`. -/
theorem satisfiesAll_isAssociated (reMatch : String → Bool → String → Bool)
    (schemaKeys : List String) (filters : List FilterPredicate) (r : Record)
    (hmem : isAssociatedFilter ∈ filters) (hr : mapIndex r "is_associated" = Value.null) :
    satisfiesAll reMatch schemaKeys filters r = false := by
  have hp : predicateMatches reMatch isAssociatedFilter r = false := by
    simp [predicateMatches, isAssociatedFilter, valueMatches, hr, stringify]
  have hne : ¬ satisfiesAll reMatch schemaKeys filters r = true := by
    intro hall
    simp only [satisfiesAll, List.all_eq_true, Bool.and_eq_true, decide_eq_true_eq] at hall
    have h2 := (hall isAssociatedFilter hmem).2
    rw [hp] at h2
    cases h2
  simpa using hne

/-- C11, amended: after a successful list call of the selected backend, the read succeeds
and sets the state from record `r` if and only if `r` is the one and only listed record that
satisfies every predicate of the filter block (without a filter block: if and only if the
list is exactly `[r]`); when no listed record satisfies the block it fails with NotFound,
when two or more do it fails with AmbiguousResult naming their number, and it never panics
on indexing.  A filter block holding `is_associated = "true"` is satisfied by no listed
record, since canonical records carry no such field, and the read fails with NotFound. -/
theorem read_resolves_the_only_match (reMatch : String → Bool → String → Bool)
    (config : ProviderConfig) (d : PublicIpData) (resources : List Record)
    (hlist : listPublicIps config d = Outcome.done (Except.ok resources)) :
    (∀ r, dataSourceNcloudPublicIpRead reMatch config d =
          Outcome.done (none, SetSingularResourceDataFromMapSchema d r) ↔
        isOnlyMatch (satisfiesAll reMatch publicIpSchemaKeys d.filter) resources r) ∧
      (∀ d1, dataSourceNcloudPublicIpRead reMatch config d = Outcome.done (none, d1) →
        ∃ r, d1 = SetSingularResourceDataFromMapSchema d r ∧
          isOnlyMatch (satisfiesAll reMatch publicIpSchemaKeys d.filter) resources r) ∧
      ((∀ x ∈ resources, satisfiesAll reMatch publicIpSchemaKeys d.filter x = false) →
        dataSourceNcloudPublicIpRead reMatch config d =
          Outcome.done (some notFoundResult, d)) ∧
      (2 ≤ resources.countP (satisfiesAll reMatch publicIpSchemaKeys d.filter) →
        dataSourceNcloudPublicIpRead reMatch config d =
          Outcome.done
            (some (ambiguousResult
              (resources.countP (satisfiesAll reMatch publicIpSchemaKeys d.filter))), d)) ∧
      dataSourceNcloudPublicIpRead reMatch config d ≠ Outcome.panic ∧
      (d.filter = [] →
        ∀ r, dataSourceNcloudPublicIpRead reMatch config d =
            Outcome.done (none, SetSingularResourceDataFromMapSchema d r) ↔
          resources = [r]) ∧
      (isAssociatedFilter ∈ d.filter →
        dataSourceNcloudPublicIpRead reMatch config d =
          Outcome.done (some notFoundResult, d)) := by
  have hcases := dataSourceNcloudPublicIpRead_cases reMatch config d resources hlist
  have hnone : (∀ x ∈ resources, satisfiesAll reMatch publicIpSchemaKeys d.filter x = false) →
      dataSourceNcloudPublicIpRead reMatch config d =
        Outcome.done (some notFoundResult, d) := by
    intro hall
    have hnil : resources.filter (satisfiesAll reMatch publicIpSchemaKeys d.filter) = [] := by
      apply List.filter_eq_nil_iff.mpr
      intro x hx
      simp [hall x hx]
    rw [hcases, hnil]
  have hiff : ∀ r, dataSourceNcloudPublicIpRead reMatch config d =
        Outcome.done (none, SetSingularResourceDataFromMapSchema d r) ↔
      resources.filter (satisfiesAll reMatch publicIpSchemaKeys d.filter) = [r] := by
    intro r
    rw [hcases]
    rcases resources.filter (satisfiesAll reMatch publicIpSchemaKeys d.filter) with
      _ | ⟨a, _ | ⟨b, rest⟩⟩
    · simp
    · simp [SetSingularResourceDataFromMapSchema]
    · simp
  refine ⟨?_, ?_, hnone, ?_, ?_, ?_, ?_⟩
  · intro r
    rw [← filter_eq_singleton_iff]
    exact hiff r
  · intro d1 h
    rw [hcases] at h
    rcases hfil : resources.filter (satisfiesAll reMatch publicIpSchemaKeys d.filter) with
      _ | ⟨a, _ | ⟨b, rest⟩⟩
    · rw [hfil] at h
      simp at h
    · rw [hfil] at h
      simp only [Outcome.done.injEq, Prod.mk.injEq, true_and] at h
      exact ⟨a, h.symm, (filter_eq_singleton_iff _ _ _).mp hfil⟩
    · rw [hfil] at h
      simp at h
  · intro hcount
    rw [List.countP_eq_length_filter] at hcount ⊢
    rw [hcases]
    rcases hfil : resources.filter (satisfiesAll reMatch publicIpSchemaKeys d.filter) with
      _ | ⟨a, _ | ⟨b, rest⟩⟩
    · rw [hfil] at hcount
      simp at hcount
    · rw [hfil] at hcount
      simp at hcount
    · simp
  · rw [hcases]
    rcases resources.filter (satisfiesAll reMatch publicIpSchemaKeys d.filter) with
      _ | ⟨a, _ | ⟨b, rest⟩⟩ <;> simp
  · intro hf r
    have hself : resources.filter (satisfiesAll reMatch publicIpSchemaKeys []) = resources :=
      List.filter_eq_self.mpr (fun x _ => rfl)
    rw [hiff r, hf, hself]
  · intro hmem
    apply hnone
    intro x hx
    exact satisfiesAll_isAssociated reMatch publicIpSchemaKeys d.filter x hmem
      (listPublicIps_no_is_associated config d resources hlist x hx)

/-- Witness for the amended C11: over the three listed records, of which exactly one is
associated with the server "web", the filter `server_name = "web"` makes the read return
exactly that record. -/
theorem read_resolves_the_only_match_witness :
    dataSourceNcloudPublicIpRead noPattern threeRecordConfig (filterOnly [serverNameFilter]) =
      Outcome.done
        (none,
          SetSingularResourceDataFromMapSchema (filterOnly [serverNameFilter])
            associatedRecord) :=
  ((read_resolves_the_only_match noPattern threeRecordConfig (filterOnly [serverNameFilter])
      [unassociatedRecord "101", associatedRecord, unassociatedRecord "103"] rfl).1
    associatedRecord).mpr
    ⟨[unassociatedRecord "101"], [unassociatedRecord "103"], rfl, rfl, by
      intro x hx
      simp only [List.singleton_append, List.mem_cons, List.mem_singleton, List.mem_nil_iff,
        or_false] at hx
      rcases hx with rfl | rfl <;> rfl⟩

/-! ## Theorems: message texts of failures -/

/-- A character list starts with each of its initial segments. -/
theorem startsWithChars_append (p c : List Char) : startsWithChars (p ++ c) p = true := by
  induction p with
  | nil => cases c <;> rfl
  | cons x xs ih => simp [startsWithChars, ih]

/-- A character list contains each of its initial segments. -/
theorem containsChars_of_startsWith (s p : List Char) (h : startsWithChars s p = true) :
    containsChars s p = true := by
  cases s with
  | nil => simpa [containsChars] using h
  | cons c cs => simp [containsChars, h]

/-- Containment survives putting characters in front. -/
theorem containsChars_append_left (a t p : List Char) (h : containsChars t p = true) :
    containsChars (a ++ t) p = true := by
  induction a with
  | nil => simpa using h
  | cons x xs ih => simp [containsChars, ih]

/-- A text built around a part contains that part. -/
theorem mentions_append (a part c : String) : mentions (a ++ part ++ c) part = true := by
  unfold mentions
  simp only [String.data_append, List.append_assoc]
  exact containsChars_append_left _ _ _
    (containsChars_of_startsWith _ _ (startsWithChars_append _ _))

/-- The paths that do annotate their failure: an error of the activation wait contains the
requested name, an error of the deletion wait contains the stored id, and the diagnostic of
a failed Read contains the name attribute in its detail. -/
theorem annotated_failures_name_the_resource (eng : Engine) (api : V2Api G)
    (d : ResourceData) (w : World G) :
    (∀ name e w1, waitForSourceCommitRepositoryActive eng api d name w =
        Outcome.done (some e, w1) → mentions e name = true) ∧
      (∀ e w1, waitForSourceCommitRepositoryDeletion eng api d w =
        Outcome.done (some e, w1) → mentions e d.id = true) ∧
      (∀ diags d1 w1,
        resourceNcloudSourceCommitRepositoryRead api d w = Outcome.done (diags, d1, w1) →
        ∀ x ∈ diags, mentions x.Detail d.name = true) := by
  refine ⟨?_, ?_, ?_⟩
  · intro name e w1 h
    unfold waitForSourceCommitRepositoryActive at h
    rcases hres : WaitForStateContext eng (activeConf api d name) w with ⟨(e0 | p), w2⟩ | _
    · rw [hres] at h
      simp only [Outcome.done.injEq, Prod.mk.injEq, Option.some.injEq] at h
      rw [← h.1, String.append_assoc]
      exact mentions_append _ _ _
    · rw [hres] at h
      simp at h
    · rw [hres] at h
      simp at h
  · intro e w1 h
    unfold waitForSourceCommitRepositoryDeletion at h
    rcases hres : WaitForStateContext eng (deletionConf api d) w with ⟨(e0 | p), w2⟩ | _
    · rw [hres] at h
      simp only [Outcome.done.injEq, Prod.mk.injEq, Option.some.injEq] at h
      rw [← h.1, String.append_assoc]
      exact mentions_append _ _ _
    · rw [hres] at h
      simp at h
    · rw [hres] at h
      simp at h
  · intro diags d1 w1 h x hx
    unfold resourceNcloudSourceCommitRepositoryRead at h
    rcases hres : readLookup api d w with ⟨(e | (_ | repo)), w2⟩ | _
    · rw [hres] at h
      simp only [Outcome.done.injEq, Prod.mk.injEq] at h
      rw [← h.1] at hx
      simp only [List.mem_singleton] at hx
      subst hx
      have hm := mentions_append "Unable to search repository - detail repository : " d.name ""
      simpa using hm
    · rw [hres] at h
      simp only [Outcome.done.injEq, Prod.mk.injEq] at h
      rw [← h.1] at hx
      cases hx
    · rw [hres] at h
      simp only at h
      rcases hset : setRepositoryAttributes d repo with d2 | _
      · rw [hset] at h
        simp only [Outcome.done.injEq, Prod.mk.injEq] at h
        rw [← h.1] at hx
        cases hx
      · rw [hset] at h
        simp at h
    · rw [hres] at h
      simp at h

/-- C12 (evaluation at failing inputs): for the resource with id "55" and name
"tf-1234-repo" and the gateway error "503", the diagnostics of a failed gateway create, of a
failed gateway update and of a failed gateway delete, and the two diagnostics of the
repository data-source read (lookup failed, repository absent) contain neither the name nor
the id in their summary or detail. -/
theorem failures_without_resource_identity :
    (resourceNcloudSourceCommitRepositoryCreate sdkEngine failingApi
          (sampleData "55" "tf-1234-repo") freshWorld =
        Outcome.done
          ([{ Severity := Severity.Error, Summary := "Fail to create repository",
              Detail := "503" }],
            sampleData "55" "tf-1234-repo",
            { remote := (),
              calls := [Call.create (createRequest (sampleData "55" "tf-1234-repo"))] }) ∧
      diagnosticNamesResource (sampleData "55" "tf-1234-repo")
          { Severity := Severity.Error, Summary := "Fail to create repository",
            Detail := "503" } = false) ∧
    (resourceNcloudSourceCommitRepositoryUpdate failingApi (sampleData "55" "tf-1234-repo")
          freshWorld =
        Outcome.done
          ([{ Severity := Severity.Error, Summary := "503", Detail := "" }],
            sampleData "55" "tf-1234-repo",
            { remote := (),
              calls := [Call.update (updateRequest (sampleData "55" "tf-1234-repo"))
                "tf-1234-repo"] }) ∧
      diagnosticNamesResource (sampleData "55" "tf-1234-repo")
          { Severity := Severity.Error, Summary := "503", Detail := "" } = false) ∧
    (resourceNcloudSourceCommitRepositoryDelete sdkEngine deleteFailsApi
          (sampleData "55" "tf-1234-repo") freshWorld =
        Outcome.done
          ([{ Severity := Severity.Error, Summary := "503", Detail := "" }],
            sampleData "55" "tf-1234-repo",
            { remote := (),
              calls := [Call.detailGet "tf-1234-repo", Call.delete "tf-1234-repo"] })) ∧
    (dataSousrceNcloudSourceCommitRepositoryRead failingApi (sampleData "55" "tf-1234-repo")
          freshWorld =
        Outcome.done
          ([{ Severity := Severity.Error, Summary := "Unable to search repository",
              Detail := "Unable to search repository - detail" }],
            sampleData "55" "tf-1234-repo",
            { remote := (), calls := [Call.detailGet "tf-1234-repo"] }) ∧
      diagnosticNamesResource (sampleData "55" "tf-1234-repo")
          { Severity := Severity.Error, Summary := "Unable to search repository",
            Detail := "Unable to search repository - detail" } = false) ∧
    (dataSousrceNcloudSourceCommitRepositoryRead absentApi (sampleData "55" "tf-1234-repo")
          freshWorld =
        Outcome.done
          ([{ Severity := Severity.Error, Summary := "there is no such repository",
              Detail := "there is no such repository - detail" }],
            sampleData "" "tf-1234-repo",
            { remote := (), calls := [Call.detailGet "tf-1234-repo"] }) ∧
      diagnosticNamesResource (sampleData "55" "tf-1234-repo")
          { Severity := Severity.Error, Summary := "there is no such repository",
            Detail := "there is no such repository - detail" } = false) := by
  refine ⟨⟨rfl, rfl⟩, ⟨rfl, rfl⟩, rfl, ⟨rfl, rfl⟩, rfl, rfl⟩

end Ncloud
